import Mathlib

/-!
Verification of the finops-saas scan pipeline core.

Shallow embedding of the TypeScript source:
* `packages/aws-client`: role assumption (`assumeRole`), permission
  validation (`validatePermissions`), cost explorer service
  (`getCostByService`);
* `packages/rules-engine`: `FinOpsRulesEngine` idle/unattached/old-snapshot
  evaluation;
* `packages/pricing`: `SavingsCalculator` with static price tables;
* `apps/api/src/services/scan-service.ts`: `ScanService.runScan`.

Modelling conventions:
* JavaScript numbers are modelled as `ℚ` (the source only performs exact
  decimal arithmetic, division, and `Math.round`-based 2-decimal rounding);
  `Math.round x` is `⌊x + 1/2⌋` (round half towards +∞), which agrees with
  JavaScript on all finite values.
* Asynchronous calls to external AWS services are modelled by passing the
  outcome of the call (an `Except`) as an explicit argument; a function
  whose result is independent of such an argument provably makes no use of
  the corresponding network call.
* JavaScript string falsiness (`x || d` picks `d` for `undefined` and `""`)
  and number falsiness (`x || d` picks `d` for `undefined` and `0`) are
  modelled by `jsOrStr` / `jsOrNum`.
* JavaScript `Map` / plain-object records keep insertion order; they are
  modelled as association lists with in-place update.
-/

/-- JavaScript `Math.round(x * 100) / 100`: round to 2 decimal places,
half away from zero towards +∞. -/
def round2 (x : ℚ) : ℚ := (⌊x * 100 + 1/2⌋ : ℚ) / 100

/-- JavaScript `s || d` for an optional string: `undefined` and `""` are
falsy and select the default. -/
def jsOrStr (v : Option String) (d : String) : String :=
  match v with
  | none => d
  | some s => if s = "" then d else s

/-- JavaScript `x || d` for an optional number: `undefined` and `0` are
falsy and select the default. -/
def jsOrNum (v : Option ℚ) (d : ℚ) : ℚ :=
  match v with
  | none => d
  | some x => if x = 0 then d else x

/-- JavaScript `String.prototype.startsWith`. -/
def jsStartsWith (s pre : String) : Bool :=
  pre.data.isPrefixOf s.data

/-- Substring search on character lists: does `pat` occur contiguously in
the list? Implements JavaScript `String.prototype.includes`. -/
def hasSubList (pat : List Char) : List Char → Bool
  | [] => pat.isEmpty
  | a :: t => pat.isPrefixOf (a :: t) || hasSubList pat t

/-- JavaScript `String.prototype.includes`. -/
def jsIncludes (s pat : String) : Bool :=
  hasSubList pat.data s.data

/-- Association-list lookup (JavaScript object/`Map` read access). -/
def assocLookup {α : Type} (m : List (String × α)) (k : String) : Option α :=
  match m with
  | [] => none
  | (k', v) :: rest => if k' = k then some v else assocLookup rest k

/-- Association-list insert-or-overwrite (JavaScript `Map.prototype.set`):
keeps insertion order, overwrites the value of an existing key. -/
def assocSet {α : Type} (m : List (String × α)) (k : String) (v : α) :
    List (String × α) :=
  match m with
  | [] => [(k, v)]
  | (k', v') :: rest =>
      if k' = k then (k', v) :: rest else (k', v') :: assocSet rest k v

section RoundTwoLemmas

theorem round2_zero : round2 0 = 0 := by
  unfold round2
  norm_num

theorem round2_mono {x y : ℚ} (h : x ≤ y) : round2 x ≤ round2 y := by
  unfold round2
  have hf : (⌊x * 100 + 1/2⌋ : ℤ) ≤ ⌊y * 100 + 1/2⌋ := by
    apply Int.floor_mono
    linarith
  have : ((⌊x * 100 + 1/2⌋ : ℤ) : ℚ) ≤ ((⌊y * 100 + 1/2⌋ : ℤ) : ℚ) := by
    exact_mod_cast hf
  linarith

theorem abs_round2_sub (x : ℚ) : |round2 x - x| ≤ 1/200 := by
  unfold round2
  have h1 : ((⌊x * 100 + 1/2⌋ : ℤ) : ℚ) ≤ x * 100 + 1/2 := Int.floor_le _
  have h2 : x * 100 + 1/2 - 1 < ((⌊x * 100 + 1/2⌋ : ℤ) : ℚ) :=
    Int.sub_one_lt_floor _
  rw [abs_le]
  constructor <;> nlinarith

/-- A rational is an exact multiple of a cent. -/
def CentValued (x : ℚ) : Prop := ∃ k : ℤ, x = (k : ℚ) / 100

theorem centValued_round2 (x : ℚ) : CentValued (round2 x) :=
  ⟨⌊x * 100 + 1/2⌋, rfl⟩

theorem round2_of_centValued {x : ℚ} (h : CentValued x) : round2 x = x := by
  obtain ⟨k, rfl⟩ := h
  unfold round2
  have : (k : ℚ) / 100 * 100 + 1/2 = (k : ℚ) + 1/2 := by ring
  rw [this]
  have hfloor : ⌊(k : ℚ) + 1/2⌋ = k := by
    rw [Int.floor_eq_iff]
    refine ⟨by norm_num, by norm_num⟩
  rw [hfloor]

theorem centValued_add {x y : ℚ} (hx : CentValued x) (hy : CentValued y) :
    CentValued (x + y) := by
  obtain ⟨k, rfl⟩ := hx
  obtain ⟨m, rfl⟩ := hy
  exact ⟨k + m, by push_cast; ring⟩

theorem centValued_mul_twelve {x : ℚ} (hx : CentValued x) :
    CentValued (x * 12) := by
  obtain ⟨k, rfl⟩ := hx
  exact ⟨k * 12, by push_cast; ring⟩

theorem centValued_zero : CentValued 0 := ⟨0, by norm_num⟩

end RoundTwoLemmas

section SubListLemmas

theorem isPrefixOf_append_self (p r : List Char) :
    p.isPrefixOf (p ++ r) = true := by
  induction p with
  | nil => simp
  | cons a as ih => simp [List.isPrefixOf_cons₂, ih]

theorem hasSubList_cons_of_tail {pat : List Char} {a : Char} {t : List Char}
    (h : hasSubList pat t = true) : hasSubList pat (a :: t) = true := by
  unfold hasSubList
  simp [h]

theorem hasSubList_of_isPrefixOf (pat l : List Char)
    (h : pat.isPrefixOf l = true) : hasSubList pat l = true := by
  cases l with
  | nil =>
      cases pat with
      | nil => rfl
      | cons a as => simp at h
  | cons a t =>
      unfold hasSubList
      simp [h]

theorem hasSubList_of_isPrefixOf_drop (pat : List Char) :
    ∀ (l : List Char) (n : ℕ),
      pat.isPrefixOf (l.drop n) = true → hasSubList pat l = true := by
  intro l
  induction l with
  | nil =>
      intro n h
      simp only [List.drop_nil] at h
      exact hasSubList_of_isPrefixOf pat [] h
  | cons a t ih =>
      intro n h
      cases n with
      | zero => exact hasSubList_of_isPrefixOf pat (a :: t) h
      | succ m =>
          simp only [List.drop_succ_cons] at h
          exact hasSubList_cons_of_tail (ih m h)

end SubListLemmas

/-! ## Credential Broker (`assumeRole`, aws-client) -/

/-- Typed failure raised by `assumeRole`. -/
structure AssumeRoleError where
  message : String
  code : Option String
deriving DecidableEq

/-- Temporary credentials returned by a successful role assumption. -/
structure AssumedRoleCredentials where
  accessKeyId : String
  secretAccessKey : String
  sessionToken : String
  expiration : ℤ
deriving DecidableEq

/-- Raw credentials block of an STS `AssumeRole` response (every field
optional, as in the AWS SDK output shape). -/
structure StsRawCredentials where
  accessKeyId : Option String
  secretAccessKey : Option String
  sessionToken : Option String
  expiration : Option ℤ
deriving DecidableEq

/-- STS `AssumeRole` response: an optional credentials block. -/
structure StsResponse where
  credentials : Option StsRawCredentials
deriving DecidableEq

/-- An error thrown by the AWS SDK transport (a `name` plus `message`). -/
structure AwsSdkError where
  name : String
  message : String
deriving DecidableEq

/-- Local role-ARN shape validation performed by `assumeRole` before any
network call: the source checks only
`roleArn.startsWith('arn:aws:iam::') && roleArn.includes(':role/')`.
Returns the `InvalidRoleArn` error on failure, `none` when the ARN is
accepted. -/
def validateRoleArn (roleArn : String) : Option AssumeRoleError :=
  if !(jsStartsWith roleArn "arn:aws:iam::") || !(jsIncludes roleArn ":role/")
  then some { message := "Invalid role ARN format: " ++ roleArn,
              code := some "InvalidRoleArn" }
  else none

/-- Classification of STS transport errors by `assumeRole`'s catch block:
`AccessDenied`, `InvalidClientTokenId`, `MalformedPolicyDocument` map to
stable codes; a message mentioning credentials maps to `NoCredentials`;
anything else keeps the AWS error name as code. -/
def classifyStsError (roleArn : String) (e : AwsSdkError) : AssumeRoleError :=
  if e.name = "AccessDenied" then
    { message := "Access denied when assuming role " ++ roleArn ++
        ". Check IAM trust policy and permissions.",
      code := some "AccessDenied" }
  else if e.name = "InvalidClientTokenId" then
    { message := "Invalid AWS credentials. Check your access key and secret.",
      code := some "InvalidCredentials" }
  else if e.name = "MalformedPolicyDocument" then
    { message := "Malformed IAM policy document in role trust policy.",
      code := some "MalformedPolicy" }
  else if jsIncludes e.message "Could not load credentials" ||
          jsIncludes e.message "credentials" then
    { message := "Could not load AWS credentials.", code := some "NoCredentials" }
  else
    { message := "Failed to assume role: " ++ e.message, code := some e.name }

/-- Embedding of `assumeRole` (aws-client `sts-service`): validate the role
ARN locally, then (and only then) consult the token-exchange outcome
`stsExchange`, classifying its failures and checking the completeness of
returned credentials. -/
def assumeRole (roleArn : String) (durationSeconds : ℤ) (now : ℤ)
    (stsExchange : Except AwsSdkError StsResponse) :
    Except AssumeRoleError AssumedRoleCredentials :=
  match validateRoleArn roleArn with
  | some e => .error e
  | none =>
      match stsExchange with
      | .error e => .error (classifyStsError roleArn e)
      | .ok response =>
          match response.credentials with
          | none => .error { message := "No credentials returned from AssumeRole",
                             code := some "NoCredentials" }
          | some creds =>
              match creds.accessKeyId, creds.secretAccessKey, creds.sessionToken with
              | some ak, some sk, some st =>
                  .ok { accessKeyId := ak, secretAccessKey := sk,
                        sessionToken := st,
                        expiration :=
                          creds.expiration.getD (now + durationSeconds * 1000) }
              | _, _, _ =>
                  .error { message := "Incomplete credentials returned from AssumeRole",
                           code := some "IncompleteCredentials" }

/-- Modelled from the spec: the full role-identifier pattern
`arn:aws:iam::<12-digit-account>:role/<name>` — the fixed head, exactly
twelve decimal digits, the literal `:role/`, and a nonempty name. Spec-side
definition used to compare the spec's pattern with the source's weaker
local check. -/
def matchesArnPatternSpec (s : String) : Bool :=
  let l := s.data
  "arn:aws:iam::".data.isPrefixOf l &&
  ((l.drop 13).take 12).length == 12 &&
  ((l.drop 13).take 12).all Char.isDigit &&
  ":role/".data.isPrefixOf ((l.drop 13).drop 12) &&
  !((l.drop 13).drop 18).isEmpty

theorem validateRoleArn_accepts_iff (roleArn : String) :
    validateRoleArn roleArn = none ↔
      (jsStartsWith roleArn "arn:aws:iam::" = true ∧
       jsIncludes roleArn ":role/" = true) := by
  unfold validateRoleArn
  constructor
  · intro h
    split at h
    · exact absurd h (by simp)
    · rename_i hcond
      simp only [Bool.or_eq_true, Bool.not_eq_true'] at hcond
      push_neg at hcond
      constructor
      · have := hcond.1
        revert this
        cases jsStartsWith roleArn "arn:aws:iam::" <;> simp
      · have := hcond.2
        revert this
        cases jsIncludes roleArn ":role/" <;> simp
  · intro ⟨h1, h2⟩
    simp [h1, h2]

/-- Claim C1, counterexample: `arn:aws:iam::12345:role/x` does not match
the spec's 12-digit-account ARN pattern, yet `assumeRole`'s local
validation accepts it (the source checks only the `arn:aws:iam::` head and
the `:role/` infix). -/
theorem arn_validation_counterexample :
    matchesArnPatternSpec "arn:aws:iam::12345:role/x" = false ∧
    validateRoleArn "arn:aws:iam::12345:role/x" = none := by
  constructor
  · decide
  · rw [validateRoleArn_accepts_iff]
    exact ⟨by decide, by decide⟩

/-- Claim C1, amended: every role identifier matching the full pattern
`arn:aws:iam::<12-digit-account>:role/<name>` passes `assumeRole`'s local
validation (the source's check — `startsWith 'arn:aws:iam::'` and
`includes ':role/'` — is weaker than the spec pattern); and whenever the
local check rejects, `assumeRole` fails with an `AssumeRoleError` whose
code is `InvalidRoleArn`, with a result independent of the token-exchange
outcome (no network call is consulted). -/
theorem assumeRole_arn_validation (roleArn : String) (d now : ℤ)
    (sts sts' : Except AwsSdkError StsResponse) :
    (matchesArnPatternSpec roleArn = true → validateRoleArn roleArn = none) ∧
    (validateRoleArn roleArn ≠ none →
       assumeRole roleArn d now sts = assumeRole roleArn d now sts' ∧
       ∃ e, assumeRole roleArn d now sts = .error e ∧
            e.code = some "InvalidRoleArn") := by
  constructor
  · intro h
    unfold matchesArnPatternSpec at h
    simp only [Bool.and_eq_true] at h
    obtain ⟨⟨⟨⟨h1, _⟩, _⟩, h4⟩, _⟩ := h
    rw [validateRoleArn_accepts_iff]
    refine ⟨h1, ?_⟩
    unfold jsIncludes
    apply hasSubList_of_isPrefixOf_drop _ _ 25
    rw [List.drop_drop] at h4
    exact h4
  · intro h
    cases hv : validateRoleArn roleArn with
    | none => exact absurd hv h
    | some e =>
        have he : e.code = some "InvalidRoleArn" := by
          unfold validateRoleArn at hv
          split at hv
          · cases hv
            rfl
          · exact absurd hv (by simp)
        constructor
        · unfold assumeRole
          rw [hv]
        · refine ⟨e, ?_, he⟩
          unfold assumeRole
          rw [hv]

/-- Claim C1, witness: the well-formed ARN
`arn:aws:iam::123456789012:role/MyRole` matches the spec pattern and is
accepted by local validation; the malformed identifier `not-an-arn` is
rejected and `assumeRole` fails on it with code `InvalidRoleArn` for any
token-exchange outcome. -/
theorem assumeRole_arn_validation_witness :
    validateRoleArn "arn:aws:iam::123456789012:role/MyRole" = none ∧
    ∃ e, assumeRole "not-an-arn" 3600 0 (.ok ⟨none⟩) = .error e ∧
         e.code = some "InvalidRoleArn" := by
  constructor
  · exact (assumeRole_arn_validation "arn:aws:iam::123456789012:role/MyRole"
      3600 0 (.ok ⟨none⟩) (.ok ⟨none⟩)).1 (by decide)
  · exact ((assumeRole_arn_validation "not-an-arn" 3600 0 (.ok ⟨none⟩)
      (.ok ⟨none⟩)).2 (by decide)).2

/-! ## Permission Prober (`validatePermissions`, aws-client) -/

/-- Outcome detail of a failed capability probe: the extracted error
message and optional error code. -/
structure ProbeError where
  message : String
  code : Option String
deriving DecidableEq

/-- Per-capability check outcome recorded in a `ValidationResult`. -/
structure CheckResult where
  success : Bool
  error : Option String
  code : Option String
deriving DecidableEq

/-- Itemized failure entry of a `ValidationResult`. -/
structure ValidationServiceError where
  service : String
  error : String
  code : Option String
deriving DecidableEq

/-- The two capability checks run by the prober. -/
structure ValidationChecks where
  costExplorer : CheckResult
  ec2 : CheckResult
deriving DecidableEq

/-- Aggregated result of permission validation. -/
structure ValidationResult where
  success : Bool
  errors : List ValidationServiceError
  checks : ValidationChecks
deriving DecidableEq

/-- The `ValidationError` raised when at least one capability check
fails; carries the full `ValidationResult`. -/
structure ValidationError where
  message : String
  validationResult : ValidationResult
deriving DecidableEq

/-- Embedding of `validatePermissions`: runs the Cost Explorer probe and
the EC2 probe (each probe's outcome is passed as an argument), records
both check results independently, accumulates one itemized error per
failing capability (in the order Cost Explorer, EC2), and throws a
`ValidationError` carrying the full result when any check failed. -/
def validatePermissions (ceProbe ec2Probe : Except ProbeError Unit) :
    Except ValidationError ValidationResult :=
  let ceCheck : CheckResult :=
    match ceProbe with
    | .ok _ => { success := true, error := none, code := none }
    | .error e => { success := false, error := some e.message, code := e.code }
  let ceErrors : List ValidationServiceError :=
    match ceProbe with
    | .ok _ => []
    | .error e => [{ service := "Cost Explorer", error := e.message, code := e.code }]
  let ec2Check : CheckResult :=
    match ec2Probe with
    | .ok _ => { success := true, error := none, code := none }
    | .error e => { success := false, error := some e.message, code := e.code }
  let ec2Errors : List ValidationServiceError :=
    match ec2Probe with
    | .ok _ => []
    | .error e => [{ service := "EC2", error := e.message, code := e.code }]
  let errors := ceErrors ++ ec2Errors
  let result : ValidationResult :=
    { success := errors.length = 0,
      errors := errors,
      checks := { costExplorer := ceCheck, ec2 := ec2Check } }
  if errors.length ≠ 0 then
    .error { message := "Permission validation failed: " ++
               String.intercalate ", " (errors.map (fun e => e.service)),
             validationResult := result }
  else
    .ok result

/-- Claim C7: `validatePermissions` records both capability checks
independently of each other's outcome; when at least one probe fails it
raises a `ValidationError` whose `validationResult` has `success = false`,
records both checks, and whose error list names exactly the failing
capabilities (`Cost Explorer` when the billing probe failed, `EC2` when
the inventory probe failed) — in particular one entry, `Cost Explorer`,
when only the billing probe fails. -/
theorem validatePermissions_itemizes (ceProbe ec2Probe : Except ProbeError Unit)
    (h : ceProbe.isOk = false ∨ ec2Probe.isOk = false) :
    ∃ ve, validatePermissions ceProbe ec2Probe = .error ve ∧
      ve.validationResult.success = false ∧
      ve.validationResult.checks.costExplorer.success = ceProbe.isOk ∧
      ve.validationResult.checks.ec2.success = ec2Probe.isOk ∧
      ve.validationResult.errors.map (fun e => e.service) =
        (if ceProbe.isOk then [] else ["Cost Explorer"]) ++
        (if ec2Probe.isOk then [] else ["EC2"]) := by
  cases ceProbe with
  | ok u =>
      cases ec2Probe with
      | ok v => simp [Except.isOk, Except.toBool] at h
      | error e => exact ⟨_, rfl, rfl, rfl, rfl, rfl⟩
  | error e =>
      cases ec2Probe with
      | ok v => exact ⟨_, rfl, rfl, rfl, rfl, rfl⟩
      | error e' => exact ⟨_, rfl, rfl, rfl, rfl, rfl⟩

/-- Claim C7, witness (end-to-end scenario 5): billing probe fails with
`AccessDenied`, inventory probe succeeds — the raised `ValidationError`
lists exactly one failing capability, `Cost Explorer`, and
`success = false`. -/
theorem validatePermissions_itemizes_witness :
    ∃ ve, validatePermissions
        (.error { message := "Access denied to Cost Explorer.",
                  code := some "AccessDenied" }) (.ok ()) = .error ve ∧
      ve.validationResult.success = false ∧
      ve.validationResult.checks.costExplorer.success = false ∧
      ve.validationResult.checks.ec2.success = true ∧
      ve.validationResult.errors.map (fun e => e.service) = ["Cost Explorer"] := by
  obtain ⟨ve, h1, h2, h3, h4, h5⟩ := validatePermissions_itemizes
    (.error { message := "Access denied to Cost Explorer.",
              code := some "AccessDenied" }) (.ok ()) (Or.inl rfl)
  exact ⟨ve, h1, h2, h3, h4, by simpa using h5⟩

/-! ## Rule Evaluation Engine (`FinOpsRulesEngine`, rules-engine) -/

/-- Rolling CPU utilization metric attached to an EC2 instance. -/
structure CpuUtilization where
  average : ℚ
  period : String
deriving DecidableEq

/-- Normalized EC2 instance record (`Ec2Instance`, rules-engine/aws-client).
Common `AwsResource` fields (`id`, `type`, `region`, `accountId`, optional
`tags`) plus the instance-specific fields. -/
structure Ec2Instance where
  id : String
  type : String
  region : String
  accountId : String
  tags : Option (List (String × String))
  instanceId : String
  instanceType : String
  state : String
  launchTime : ℤ
  cpuUtilization : Option CpuUtilization
deriving DecidableEq

/-- Normalized EBS volume record (`EbsVolume`). -/
structure EbsVolume where
  id : String
  type : String
  region : String
  accountId : String
  tags : Option (List (String × String))
  volumeId : String
  size : ℚ
  volumeType : String
  state : String
  attached : Bool
  attachmentInstanceId : Option String
  createTime : ℤ
  encrypted : Bool
deriving DecidableEq

/-- Normalized EBS snapshot record (`EbsSnapshot`). -/
structure EbsSnapshot where
  id : String
  type : String
  region : String
  accountId : String
  tags : Option (List (String × String))
  snapshotId : String
  volumeId : Option String
  volumeSize : ℚ
  state : String
  startTime : ℤ
  ageInDays : ℤ
  encrypted : Bool
  description : Option String
deriving DecidableEq

/-- A detected cost-optimization issue. -/
structure DetectedIssue where
  ruleId : String
  ruleName : String
  resourceId : String
  resourceType : String
  issueDescription : String
  riskLevel : String
  action : String
deriving DecidableEq

/-- `FinOpsRulesEngine.isIdleEc2`: instance must be running, must carry
CPU utilization data, and its 7-day average must be below 5%. -/
def isIdleEc2 (inst : Ec2Instance) : Bool :=
  if inst.state ≠ "running" then false
  else
    match inst.cpuUtilization with
    | none => false
    | some cpu => cpu.average < 5

/-- The `DetectedIssue` pushed by `evaluateEc2Instances` for an idle
instance. -/
def idleEc2Issue (inst : Ec2Instance) : DetectedIssue :=
  { ruleId := "idle_ec2",
    resourceId := inst.instanceId,
    resourceType := "ec2",
    issueDescription := "EC2 instance " ++ inst.instanceId ++
      " has CPU utilization below 5% for 7 days",
    riskLevel := "medium",
    ruleName := "Idle EC2 Instance",
    action := "stop" }

/-- `FinOpsRulesEngine.evaluateEc2Instances`: one `idle_ec2` issue per
instance passing `isIdleEc2`, in input order. -/
def evaluateEc2Instances : List Ec2Instance → List DetectedIssue
  | [] => []
  | i :: rest =>
      (if isIdleEc2 i then [idleEc2Issue i] else []) ++ evaluateEc2Instances rest

/-- `FinOpsRulesEngine.isUnattachedEbs`: volume available and not attached. -/
def isUnattachedEbs (volume : EbsVolume) : Bool :=
  volume.state = "available" && !volume.attached

/-- The `DetectedIssue` pushed by `evaluateEbsVolumes`. -/
def unattachedEbsIssue (volume : EbsVolume) : DetectedIssue :=
  { ruleId := "unattached_ebs",
    resourceId := volume.volumeId,
    resourceType := "ebs-volume",
    issueDescription := "EBS volume " ++ volume.volumeId ++
      " is not attached to any instance",
    riskLevel := "high",
    ruleName := "Unattached EBS Volume",
    action := "delete" }

/-- `FinOpsRulesEngine.evaluateEbsVolumes`. -/
def evaluateEbsVolumes : List EbsVolume → List DetectedIssue
  | [] => []
  | v :: rest =>
      (if isUnattachedEbs v then [unattachedEbsIssue v] else []) ++
      evaluateEbsVolumes rest

/-- `FinOpsRulesEngine.isOldSnapshot`: snapshot completed and older than
30 days. -/
def isOldSnapshot (snapshot : EbsSnapshot) : Bool :=
  if snapshot.state ≠ "completed" then false
  else snapshot.ageInDays > 30

/-- The `DetectedIssue` pushed by `evaluateEbsSnapshots`. -/
def oldSnapshotIssue (snapshot : EbsSnapshot) : DetectedIssue :=
  { ruleId := "old_snapshot",
    resourceId := snapshot.snapshotId,
    resourceType := "ebs-snapshot",
    issueDescription := "EBS snapshot " ++ snapshot.snapshotId ++ " is old",
    riskLevel := "low",
    ruleName := "Old EBS Snapshot",
    action := "delete" }

/-- `FinOpsRulesEngine.evaluateEbsSnapshots`. -/
def evaluateEbsSnapshots : List EbsSnapshot → List DetectedIssue
  | [] => []
  | s :: rest =>
      (if isOldSnapshot s then [oldSnapshotIssue s] else []) ++
      evaluateEbsSnapshots rest

/-- `FinOpsRulesEngine.evaluateAllResources` as invoked by the scan
orchestrator (all three resource lists provided): EC2 issues, then volume
issues, then snapshot issues. -/
def evaluateAllResources (ec2Instances : List Ec2Instance)
    (ebsVolumes : List EbsVolume) (ebsSnapshots : List EbsSnapshot) :
    List DetectedIssue :=
  evaluateEc2Instances ec2Instances ++ evaluateEbsVolumes ebsVolumes ++
    evaluateEbsSnapshots ebsSnapshots

/-- Modelled from the spec: the idle-EC2 match condition as the claim
states it — `state == "running"` AND `cpuUtilization` present AND
`cpuUtilization.average < 5`. Spec-side predicate used to compare with
the source's `isIdleEc2`. -/
def idleEc2Spec (inst : Ec2Instance) : Bool :=
  inst.state == "running" &&
  (match inst.cpuUtilization with
   | some cpu => decide (cpu.average < 5)
   | none => false)

/-- Claim C4: rule evaluation emits exactly one `idle_ec2` issue (risk
`medium`, action `stop`, one issue per instance) for each instance that is
running, has utilization data, and averages below 5% CPU — and no issue
for any other instance; a running instance without utilization data never
matches. -/
theorem evaluateEc2_idle_exactly (instances : List Ec2Instance) :
    evaluateEc2Instances instances =
      (instances.filter idleEc2Spec).map idleEc2Issue ∧
    (∀ issue ∈ evaluateEc2Instances instances,
       issue.ruleId = "idle_ec2" ∧ issue.riskLevel = "medium" ∧
       issue.action = "stop") ∧
    (∀ i ∈ instances, i.cpuUtilization = none → isIdleEc2 i = false) := by
  have hpred : ∀ i : Ec2Instance, isIdleEc2 i = idleEc2Spec i := by
    intro i
    unfold isIdleEc2 idleEc2Spec
    by_cases hs : i.state = "running"
    · cases hc : i.cpuUtilization with
      | none => simp [hs, hc]
      | some cpu => simp [hs, hc]
    · simp [hs]
  refine ⟨?_, ?_, ?_⟩
  · induction instances with
    | nil => rfl
    | cons i rest ih =>
        unfold evaluateEc2Instances
        rw [List.filter_cons, hpred i, ih]
        by_cases hi : idleEc2Spec i = true
        · simp [hi]
        · simp [hi]
  · intro issue hmem
    induction instances with
    | nil => simp [evaluateEc2Instances] at hmem
    | cons i rest ih =>
        unfold evaluateEc2Instances at hmem
        rw [List.mem_append] at hmem
        cases hmem with
        | inl h =>
            by_cases hi : isIdleEc2 i = true
            · simp [hi] at h
              subst h
              exact ⟨rfl, rfl, rfl⟩
            · simp [hi] at h
        | inr h => exact ih h
  · intro i _ hnone
    unfold isIdleEc2
    rw [hnone]
    by_cases hs : i.state = "running" <;> simp [hs]

/-- Claim C4, witness: a concrete running instance with 2% average CPU
yields exactly one `idle_ec2` issue with risk `medium` and action `stop`;
a running instance without utilization data yields none. -/
theorem evaluateEc2_idle_exactly_witness :
    evaluateEc2Instances
        [{ id := "i-1", type := "ec2", region := "us-east-1",
           accountId := "111", tags := none, instanceId := "i-1",
           instanceType := "t3.medium", state := "running", launchTime := 0,
           cpuUtilization := some { average := 2, period := "7d" } },
         { id := "i-2", type := "ec2", region := "us-east-1",
           accountId := "111", tags := none, instanceId := "i-2",
           instanceType := "t3.medium", state := "running", launchTime := 0,
           cpuUtilization := none }] =
      [idleEc2Issue
        { id := "i-1", type := "ec2", region := "us-east-1",
          accountId := "111", tags := none, instanceId := "i-1",
          instanceType := "t3.medium", state := "running", launchTime := 0,
          cpuUtilization := some { average := 2, period := "7d" } }] := by
  rw [(evaluateEc2_idle_exactly _).1]
  have h1 : idleEc2Spec
      { id := "i-1", type := "ec2", region := "us-east-1",
        accountId := "111", tags := none, instanceId := "i-1",
        instanceType := "t3.medium", state := "running", launchTime := 0,
        cpuUtilization := some { average := 2, period := "7d" } } = true := by
    unfold idleEc2Spec
    norm_num
  have h2 : idleEc2Spec
      { id := "i-2", type := "ec2", region := "us-east-1",
        accountId := "111", tags := none, instanceId := "i-2",
        instanceType := "t3.medium", state := "running", launchTime := 0,
        cpuUtilization := none } = false := by
    unfold idleEc2Spec
    simp
  simp [List.filter_cons, h1, h2]

/-! ## Savings Calculator (pricing package) -/

/-- `EC2_INSTANCE_PRICING`: static EC2 instance-type → monthly USD table
(us-east-1 Linux On-Demand, 730 hours/month). -/
def EC2_INSTANCE_PRICING : List (String × ℚ) :=
  [("t2.micro", 8.76), ("t2.small", 17.52), ("t2.medium", 35.04),
   ("t2.large", 70.08), ("t2.xlarge", 140.16), ("t2.2xlarge", 280.32),
   ("t3.micro", 7.30), ("t3.small", 14.60), ("t3.medium", 29.20),
   ("t3.large", 58.40), ("t3.xlarge", 116.80), ("t3.2xlarge", 233.60),
   ("t3a.micro", 6.57), ("t3a.small", 13.14), ("t3a.medium", 26.28),
   ("t3a.large", 52.56), ("t3a.xlarge", 105.12), ("t3a.2xlarge", 210.24),
   ("t4g.micro", 5.84), ("t4g.small", 11.68), ("t4g.medium", 23.36),
   ("t4g.large", 46.72), ("t4g.xlarge", 93.44), ("t4g.2xlarge", 186.88),
   ("m5.large", 77.70), ("m5.xlarge", 155.40), ("m5.2xlarge", 310.80),
   ("m5.4xlarge", 621.60), ("m5.8xlarge", 1243.20), ("m5.12xlarge", 1864.80),
   ("m5.16xlarge", 2486.40), ("m5.24xlarge", 3729.60),
   ("m5a.large", 69.93), ("m5a.xlarge", 139.86), ("m5a.2xlarge", 279.72),
   ("m5a.4xlarge", 559.44), ("m5a.8xlarge", 1118.88),
   ("m5a.12xlarge", 1678.32), ("m5a.16xlarge", 2237.76),
   ("m5a.24xlarge", 3356.64),
   ("m6i.large", 77.70), ("m6i.xlarge", 155.40), ("m6i.2xlarge", 310.80),
   ("m6i.4xlarge", 621.60), ("m6i.8xlarge", 1243.20),
   ("m6i.12xlarge", 1864.80), ("m6i.16xlarge", 2486.40),
   ("m6i.24xlarge", 3729.60), ("m6i.32xlarge", 4972.80),
   ("c5.large", 77.70), ("c5.xlarge", 155.40), ("c5.2xlarge", 310.80),
   ("c5.4xlarge", 621.60), ("c5.9xlarge", 1398.60), ("c5.12xlarge", 1864.80),
   ("c5.18xlarge", 2797.20), ("c5.24xlarge", 3729.60),
   ("c5a.large", 69.93), ("c5a.xlarge", 139.86), ("c5a.2xlarge", 279.72),
   ("c5a.4xlarge", 559.44), ("c5a.8xlarge", 1118.88),
   ("c5a.12xlarge", 1678.32), ("c5a.16xlarge", 2237.76),
   ("c5a.24xlarge", 3356.64),
   ("c6i.large", 77.70), ("c6i.xlarge", 155.40), ("c6i.2xlarge", 310.80),
   ("c6i.4xlarge", 621.60), ("c6i.8xlarge", 1243.20),
   ("c6i.12xlarge", 1864.80), ("c6i.16xlarge", 2486.40),
   ("c6i.24xlarge", 3729.60), ("c6i.32xlarge", 4972.80),
   ("r5.large", 126.48), ("r5.xlarge", 252.96), ("r5.2xlarge", 505.92),
   ("r5.4xlarge", 1011.84), ("r5.8xlarge", 2023.68),
   ("r5.12xlarge", 3035.52), ("r5.16xlarge", 4047.36),
   ("r5.24xlarge", 6071.04),
   ("r5a.large", 113.83), ("r5a.xlarge", 227.66), ("r5a.2xlarge", 455.32),
   ("r5a.4xlarge", 910.64), ("r5a.8xlarge", 1821.28),
   ("r5a.12xlarge", 2731.92), ("r5a.16xlarge", 3642.56),
   ("r5a.24xlarge", 5463.84),
   ("r6i.large", 126.48), ("r6i.xlarge", 252.96), ("r6i.2xlarge", 505.92),
   ("r6i.4xlarge", 1011.84), ("r6i.8xlarge", 2023.68),
   ("r6i.12xlarge", 3035.52), ("r6i.16xlarge", 4047.36),
   ("r6i.24xlarge", 6071.04), ("r6i.32xlarge", 8094.72),
   ("i3.large", 156.00), ("i3.xlarge", 312.00), ("i3.2xlarge", 624.00),
   ("i3.4xlarge", 1248.00), ("i3.8xlarge", 2496.00),
   ("i3.16xlarge", 4992.00),
   ("p3.2xlarge", 3066.00), ("p3.8xlarge", 12264.00),
   ("p3.16xlarge", 24528.00),
   ("g4dn.xlarge", 526.50), ("g4dn.2xlarge", 1053.00),
   ("g4dn.4xlarge", 2106.00), ("g4dn.8xlarge", 4212.00),
   ("g4dn.12xlarge", 6318.00), ("g4dn.16xlarge", 8424.00)]

/-- EBS per-GB-month rates (us-east-1). -/
def EBS_GP3_PRICE_PER_GB_MONTH : ℚ := 0.08

def EBS_GP2_PRICE_PER_GB_MONTH : ℚ := 0.10

def EBS_IO1_PRICE_PER_GB_MONTH : ℚ := 0.125

def EBS_ST1_PRICE_PER_GB_MONTH : ℚ := 0.045

def EBS_SC1_PRICE_PER_GB_MONTH : ℚ := 0.025

/-- EBS snapshot per-GB-month rate (us-east-1). -/
def EBS_SNAPSHOT_PRICE_PER_GB_MONTH : ℚ := 0.05

/-- JavaScript `String.prototype.toLowerCase` (ASCII-adequate for the
instance/volume type strings involved). -/
def toLowerStr (s : String) : String := ⟨s.data.map Char.toLower⟩

/-- `getEc2MonthlyCost`: price-table lookup on the lower-cased type, with
the JavaScript `|| 100` default (`undefined` or a zero price fall back to
the conservative $100/month flat estimate). -/
def getEc2MonthlyCost (instanceType : String) : ℚ :=
  jsOrNum (assocLookup EC2_INSTANCE_PRICING (toLowerStr instanceType)) 100

/-- The per-GB rate selected inside `getEbsVolumeMonthlyCost` by substring
tests on the lower-cased volume type (gp2, io1/io2, st1, sc1; default
gp3). -/
def ebsPricePerGB (volumeType : String) : ℚ :=
  let normalizedType := toLowerStr volumeType
  if jsIncludes normalizedType "gp2" then EBS_GP2_PRICE_PER_GB_MONTH
  else if jsIncludes normalizedType "io1" || jsIncludes normalizedType "io2"
    then EBS_IO1_PRICE_PER_GB_MONTH
  else if jsIncludes normalizedType "st1" then EBS_ST1_PRICE_PER_GB_MONTH
  else if jsIncludes normalizedType "sc1" then EBS_SC1_PRICE_PER_GB_MONTH
  else EBS_GP3_PRICE_PER_GB_MONTH

/-- `getEbsVolumeMonthlyCost`: size in GB times the per-GB rate for the
volume type. -/
def getEbsVolumeMonthlyCost (volumeType : String) (sizeGB : ℚ) : ℚ :=
  sizeGB * ebsPricePerGB volumeType

/-- `getEbsSnapshotMonthlyCost`. -/
def getEbsSnapshotMonthlyCost (sizeGB : ℚ) : ℚ :=
  sizeGB * EBS_SNAPSHOT_PRICE_PER_GB_MONTH

/-- Optional per-resource metadata consulted by the savings calculator. -/
structure ResourceData where
  instanceType : Option String
  volumeSize : Option ℚ
  volumeType : Option String
  snapshotSize : Option ℚ
deriving DecidableEq

/-- Per-issue savings estimate (`RuleSavings`). -/
structure RuleSavings where
  ruleId : String
  ruleName : String
  resourceId : String
  resourceType : String
  currentMonthlyCost : ℚ
  potentialMonthlySavings : ℚ
  savingsPercentage : ℚ
deriving DecidableEq

/-- Unrounded (currentMonthlyCost, potentialMonthlySavings) pair computed
by `calculateSavingsForIssue`'s switch on `ruleId`, before the final
2-decimal rounding. -/
def savingsPair (issue : DetectedIssue) (resourceData : Option ResourceData) :
    ℚ × ℚ :=
  if issue.ruleId = "idle_ec2" then
    let instanceType := jsOrStr (resourceData.bind (·.instanceType)) "t3.medium"
    let c := getEc2MonthlyCost instanceType
    (c, c * 0.9)
  else if issue.ruleId = "unattached_ebs" then
    let volumeSize := jsOrNum (resourceData.bind (·.volumeSize)) 20
    let volumeType := jsOrStr (resourceData.bind (·.volumeType)) "gp3"
    let c := getEbsVolumeMonthlyCost volumeType volumeSize
    (c, c)
  else if issue.ruleId = "old_snapshot" then
    let snapshotSize := jsOrNum (resourceData.bind (·.snapshotSize)) 20
    let c := getEbsSnapshotMonthlyCost snapshotSize
    (c, c)
  else
    (50, 50 * 0.8)

/-- `SavingsCalculator.calculateSavingsForIssue`: dispatch on `ruleId`
(idle_ec2 → 90% of the instance price, unattached_ebs and old_snapshot →
100% of the storage cost, unknown rules → $50 at 80%), substituting
defaults for missing resource data; all money outputs rounded to 2
decimals, `savingsPercentage` defined as 0 when the current cost is 0. -/
def calculateSavingsForIssue (issue : DetectedIssue)
    (resourceData : Option ResourceData) : RuleSavings :=
  let p := savingsPair issue resourceData
  let savingsPercentage : ℚ :=
    if 0 < p.1 then round2 (p.2 / p.1 * 100) else 0
  { ruleId := issue.ruleId,
    ruleName := issue.ruleName,
    resourceId := issue.resourceId,
    resourceType := issue.resourceType,
    currentMonthlyCost := round2 p.1,
    potentialMonthlySavings := round2 p.2,
    savingsPercentage := savingsPercentage }

theorem toLower_t3aMicro : toLowerStr "t3a.micro" = "t3a.micro" := by decide

theorem toLower_t3Medium : toLowerStr "t3.medium" = "t3.medium" := by decide

theorem getEc2MonthlyCost_t3aMicro : getEc2MonthlyCost "t3a.micro" = 6.57 := by
  unfold getEc2MonthlyCost
  rw [toLower_t3aMicro]
  simp [assocLookup, EC2_INSTANCE_PRICING, jsOrNum]
  norm_num

theorem getEc2MonthlyCost_t3Medium : getEc2MonthlyCost "t3.medium" = 29.20 := by
  unfold getEc2MonthlyCost
  rw [toLower_t3Medium]
  simp [assocLookup, EC2_INSTANCE_PRICING, jsOrNum]
  norm_num

/-- Claim C2, counterexample: an `idle_ec2` issue on a `t3a.micro`
($6.57/month) returns `currentMonthlyCost = 6.57` and
`potentialMonthlySavings = round2 (6.57 × 0.9) = 5.91`, but
`0.90 × 6.57 = 5.913 ≠ 5.91`: the two returned fields do not satisfy the
claimed exact relation `potential = 0.90 × current`. -/
theorem idle_savings_rounding_counterexample :
    (calculateSavingsForIssue
        { ruleId := "idle_ec2", ruleName := "Idle EC2 Instance",
          resourceId := "i-1", resourceType := "ec2",
          issueDescription := "idle", riskLevel := "medium", action := "stop" }
        (some { instanceType := some "t3a.micro", volumeSize := none,
                volumeType := none, snapshotSize := none })).currentMonthlyCost
      = 6.57 ∧
    (calculateSavingsForIssue
        { ruleId := "idle_ec2", ruleName := "Idle EC2 Instance",
          resourceId := "i-1", resourceType := "ec2",
          issueDescription := "idle", riskLevel := "medium", action := "stop" }
        (some { instanceType := some "t3a.micro", volumeSize := none,
                volumeType := none, snapshotSize := none })).potentialMonthlySavings
      = 5.91 ∧
    (5.91 : ℚ) ≠ 0.90 * 6.57 := by
  have hpair : savingsPair
      { ruleId := "idle_ec2", ruleName := "Idle EC2 Instance",
        resourceId := "i-1", resourceType := "ec2",
        issueDescription := "idle", riskLevel := "medium", action := "stop" }
      (some { instanceType := some "t3a.micro", volumeSize := none,
              volumeType := none, snapshotSize := none }) = (6.57, 6.57 * 0.9) := by
    unfold savingsPair
    simp [Option.bind, jsOrStr, getEc2MonthlyCost_t3aMicro]
  refine ⟨?_, ?_, by norm_num⟩
  · unfold calculateSavingsForIssue
    rw [hpair]
    unfold round2
    norm_num
  · unfold calculateSavingsForIssue
    rw [hpair]
    unfold round2
    norm_num

/-- Claim C2, amended: for `unattached_ebs` and `old_snapshot` issues the
returned `potentialMonthlySavings` equals the returned
`currentMonthlyCost` exactly (100% savings); for `idle_ec2` issues the
returned fields are `currentMonthlyCost = round2 price` and
`potentialMonthlySavings = round2 (price × 0.9)` for the (defaulted)
instance type's table price — i.e. 90% is applied to the unrounded price
before the 2-decimal rounding, so the two returned fields may differ from
the exact relation `potential = 0.90 × current` by the final rounding
(strictly less than half a cent). -/
theorem calculateSavings_rule_relations (issue : DetectedIssue)
    (rd : Option ResourceData) :
    ((issue.ruleId = "unattached_ebs" ∨ issue.ruleId = "old_snapshot") →
        (calculateSavingsForIssue issue rd).potentialMonthlySavings =
          (calculateSavingsForIssue issue rd).currentMonthlyCost) ∧
    (issue.ruleId = "idle_ec2" →
        (calculateSavingsForIssue issue rd).currentMonthlyCost =
          round2 (getEc2MonthlyCost
            (jsOrStr (rd.bind (·.instanceType)) "t3.medium")) ∧
        (calculateSavingsForIssue issue rd).potentialMonthlySavings =
          round2 (getEc2MonthlyCost
            (jsOrStr (rd.bind (·.instanceType)) "t3.medium") * 0.9)) := by
  constructor
  · rintro (h | h) <;>
      simp [calculateSavingsForIssue, savingsPair, h]
  · intro h
    have hcur : (calculateSavingsForIssue issue rd).currentMonthlyCost =
        round2 (getEc2MonthlyCost
          (jsOrStr (rd.bind (·.instanceType)) "t3.medium")) := by
      simp [calculateSavingsForIssue, savingsPair, h]
    have hpot : (calculateSavingsForIssue issue rd).potentialMonthlySavings =
        round2 (getEc2MonthlyCost
          (jsOrStr (rd.bind (·.instanceType)) "t3.medium") * 0.9) := by
      simp [calculateSavingsForIssue, savingsPair, h]
    exact ⟨hcur, hpot⟩

/-- Claim C2, witness: with no resource data, an `unattached_ebs` issue
returns savings equal to cost, and an `idle_ec2` issue returns the
round2-related fields of the amended claim. -/
theorem calculateSavings_rule_relations_witness :
    (calculateSavingsForIssue
        { ruleId := "unattached_ebs", ruleName := "Unattached EBS Volume",
          resourceId := "v-1", resourceType := "ebs-volume",
          issueDescription := "u", riskLevel := "high", action := "delete" }
        none).potentialMonthlySavings =
      (calculateSavingsForIssue
        { ruleId := "unattached_ebs", ruleName := "Unattached EBS Volume",
          resourceId := "v-1", resourceType := "ebs-volume",
          issueDescription := "u", riskLevel := "high", action := "delete" }
        none).currentMonthlyCost ∧
    (calculateSavingsForIssue
        { ruleId := "idle_ec2", ruleName := "Idle EC2 Instance",
          resourceId := "i-1", resourceType := "ec2",
          issueDescription := "i", riskLevel := "medium", action := "stop" }
        none).currentMonthlyCost =
      round2 (getEc2MonthlyCost
        (jsOrStr ((none : Option ResourceData).bind (·.instanceType))
          "t3.medium")) :=
  ⟨(calculateSavings_rule_relations _ none).1 (Or.inl rfl),
   ((calculateSavings_rule_relations _ none).2 rfl).1⟩

section PricingBounds

theorem ec2Pricing_lower :
    ∀ p ∈ EC2_INSTANCE_PRICING, (1/200 : ℚ) ≤ p.2 := by
  rw [← List.forall_iff_forall_mem]
  norm_num [EC2_INSTANCE_PRICING, List.forall_cons]

theorem assocLookup_mem {α : Type} (m : List (String × α)) (k : String)
    (v : α) (h : assocLookup m k = some v) : ∃ k', (k', v) ∈ m := by
  induction m with
  | nil => simp [assocLookup] at h
  | cons p rest ih =>
      unfold assocLookup at h
      split at h
      · cases h
        exact ⟨p.1, by simp⟩
      · obtain ⟨k', hk'⟩ := ih h
        exact ⟨k', by simp [hk']⟩

theorem getEc2MonthlyCost_lower (t : String) :
    (1/200 : ℚ) ≤ getEc2MonthlyCost t := by
  unfold getEc2MonthlyCost jsOrNum
  cases h : assocLookup EC2_INSTANCE_PRICING (toLowerStr t) with
  | none => norm_num
  | some p =>
      by_cases hp : p = 0
      · simp [hp]
        norm_num
      · obtain ⟨k', hk'⟩ := assocLookup_mem _ _ _ h
        have := ec2Pricing_lower (k', p) hk'
        simpa [hp] using this

theorem ebsPricePerGB_lower (vt : String) : (1/40 : ℚ) ≤ ebsPricePerGB vt := by
  unfold ebsPricePerGB
  by_cases h1 : jsIncludes (toLowerStr vt) "gp2"
  · simp only [h1, if_true]
    norm_num [EBS_GP2_PRICE_PER_GB_MONTH]
  · by_cases h2 : jsIncludes (toLowerStr vt) "io1" || jsIncludes (toLowerStr vt) "io2"
    · simp only [h1, h2, if_false, if_true, Bool.false_eq_true]
      norm_num [EBS_IO1_PRICE_PER_GB_MONTH]
    · by_cases h3 : jsIncludes (toLowerStr vt) "st1"
      · simp only [h1, h2, h3, if_false, if_true, Bool.false_eq_true]
        norm_num [EBS_ST1_PRICE_PER_GB_MONTH]
      · by_cases h4 : jsIncludes (toLowerStr vt) "sc1"
        · simp only [h1, h2, h3, h4, if_false, if_true, Bool.false_eq_true]
          norm_num [EBS_SC1_PRICE_PER_GB_MONTH]
        · simp only [h1, h2, h3, h4, if_false, Bool.false_eq_true]
          norm_num [EBS_GP3_PRICE_PER_GB_MONTH]

theorem round2_pos_of_lower {x : ℚ} (h : 1/200 ≤ x) : 0 < round2 x := by
  have h1 : round2 (1/200) ≤ round2 x := round2_mono h
  have h2 : round2 (1/200) = 1/100 := by
    unfold round2
    norm_num
  linarith

end PricingBounds

/-- Sizes coming from resource metadata are whole numbers of GB (AWS
reports EBS volume and snapshot sizes as integers). -/
def natSized (rd : Option ResourceData) : Prop :=
  match rd with
  | none => True
  | some r =>
      (∀ v ∈ r.volumeSize, ∃ n : ℕ, v = n) ∧
      (∀ v ∈ r.snapshotSize, ∃ n : ℕ, v = n)

theorem jsOrNum_natSized_ge_one {v : Option ℚ}
    (h : ∀ x ∈ v, ∃ n : ℕ, x = n) : (1 : ℚ) ≤ jsOrNum v 20 := by
  cases v with
  | none => norm_num [jsOrNum]
  | some x =>
      obtain ⟨n, rfl⟩ := h x rfl
      unfold jsOrNum
      by_cases hx : (n : ℚ) = 0
      · simp [hx]
      · have hn : n ≠ 0 := by
          intro h0
          exact hx (by rw [h0]; norm_num)
        have hle : (1 : ℚ) ≤ (n : ℚ) := by
          exact_mod_cast Nat.one_le_iff_ne_zero.mpr hn
        simpa [hx] using hle

theorem ebsPricePerGB_gp3 : ebsPricePerGB "gp3" = EBS_GP3_PRICE_PER_GB_MONTH := by
  unfold ebsPricePerGB
  have h1 : jsIncludes (toLowerStr "gp3") "gp2" = false := by decide
  have h2 : jsIncludes (toLowerStr "gp3") "io1" = false := by decide
  have h3 : jsIncludes (toLowerStr "gp3") "io2" = false := by decide
  have h4 : jsIncludes (toLowerStr "gp3") "st1" = false := by decide
  have h5 : jsIncludes (toLowerStr "gp3") "sc1" = false := by decide
  simp [h1, h2, h3, h4, h5]

/-- Claim C10: when resource metadata is missing, `calculateSavingsForIssue`
substitutes fixed defaults — a `t3.medium` instance for `idle_ec2`
($29.20/mo), a 20 GB gp3 volume for `unattached_ebs` ($1.60/mo), a 20 GB
snapshot for `old_snapshot` ($1.00/mo) — and for every issue carrying one
of these three rule ids (with sizes, when present, being whole numbers of
GB) the returned `currentMonthlyCost` is strictly positive. -/
theorem calculateSavings_defaults_positive (issue : DetectedIssue)
    (rd : Option ResourceData) (hsz : natSized rd) :
    ((issue.ruleId = "idle_ec2" ∨ issue.ruleId = "unattached_ebs" ∨
        issue.ruleId = "old_snapshot") →
      0 < (calculateSavingsForIssue issue rd).currentMonthlyCost) ∧
    (rd = none →
      (issue.ruleId = "idle_ec2" →
        (calculateSavingsForIssue issue rd).currentMonthlyCost = 29.20) ∧
      (issue.ruleId = "unattached_ebs" →
        (calculateSavingsForIssue issue rd).currentMonthlyCost = 1.60) ∧
      (issue.ruleId = "old_snapshot" →
        (calculateSavingsForIssue issue rd).currentMonthlyCost = 1)) := by
  constructor
  · rintro (h | h | h)
    · have hcur : (calculateSavingsForIssue issue rd).currentMonthlyCost =
          round2 (getEc2MonthlyCost
            (jsOrStr (rd.bind (·.instanceType)) "t3.medium")) := by
        simp [calculateSavingsForIssue, savingsPair, h]
      rw [hcur]
      exact round2_pos_of_lower (getEc2MonthlyCost_lower _)
    · have hcur : (calculateSavingsForIssue issue rd).currentMonthlyCost =
          round2 (getEbsVolumeMonthlyCost
            (jsOrStr (rd.bind (·.volumeType)) "gp3")
            (jsOrNum (rd.bind (·.volumeSize)) 20)) := by
        simp [calculateSavingsForIssue, savingsPair, h]
      rw [hcur]
      apply round2_pos_of_lower
      unfold getEbsVolumeMonthlyCost
      have hsize : (1 : ℚ) ≤ jsOrNum (rd.bind (·.volumeSize)) 20 := by
        apply jsOrNum_natSized_ge_one
        cases rd with
        | none => simp
        | some r =>
            simp only [Option.bind]
            exact hsz.1
      have hrate := ebsPricePerGB_lower (jsOrStr (rd.bind (·.volumeType)) "gp3")
      nlinarith
    · have hcur : (calculateSavingsForIssue issue rd).currentMonthlyCost =
          round2 (getEbsSnapshotMonthlyCost
            (jsOrNum (rd.bind (·.snapshotSize)) 20)) := by
        simp [calculateSavingsForIssue, savingsPair, h]
      rw [hcur]
      apply round2_pos_of_lower
      unfold getEbsSnapshotMonthlyCost EBS_SNAPSHOT_PRICE_PER_GB_MONTH
      have hsize : (1 : ℚ) ≤ jsOrNum (rd.bind (·.snapshotSize)) 20 := by
        apply jsOrNum_natSized_ge_one
        cases rd with
        | none => simp
        | some r =>
            simp only [Option.bind]
            exact hsz.2
      nlinarith
  · rintro rfl
    refine ⟨?_, ?_, ?_⟩
    · intro h
      have hcur : (calculateSavingsForIssue issue none).currentMonthlyCost =
          round2 (getEc2MonthlyCost "t3.medium") := by
        simp [calculateSavingsForIssue, savingsPair, h, jsOrStr]
      rw [hcur, getEc2MonthlyCost_t3Medium]
      unfold round2
      norm_num
    · intro h
      have hcur : (calculateSavingsForIssue issue none).currentMonthlyCost =
          round2 (getEbsVolumeMonthlyCost "gp3" 20) := by
        simp [calculateSavingsForIssue, savingsPair, h, jsOrStr, jsOrNum]
      rw [hcur]
      unfold getEbsVolumeMonthlyCost
      rw [ebsPricePerGB_gp3]
      unfold EBS_GP3_PRICE_PER_GB_MONTH round2
      norm_num
    · intro h
      have hcur : (calculateSavingsForIssue issue none).currentMonthlyCost =
          round2 (getEbsSnapshotMonthlyCost 20) := by
        simp [calculateSavingsForIssue, savingsPair, h, jsOrStr, jsOrNum]
      rw [hcur]
      unfold getEbsSnapshotMonthlyCost EBS_SNAPSHOT_PRICE_PER_GB_MONTH round2
      norm_num

/-- Claim C10, witness: with no resource data, an `old_snapshot` issue
gets the 20 GB default and a strictly positive $1.00/month current cost. -/
theorem calculateSavings_defaults_positive_witness :
    0 < (calculateSavingsForIssue
        { ruleId := "old_snapshot", ruleName := "Old EBS Snapshot",
          resourceId := "snap-1", resourceType := "ebs-snapshot",
          issueDescription := "o", riskLevel := "low", action := "delete" }
        none).currentMonthlyCost ∧
    (calculateSavingsForIssue
        { ruleId := "old_snapshot", ruleName := "Old EBS Snapshot",
          resourceId := "snap-1", resourceType := "ebs-snapshot",
          issueDescription := "o", riskLevel := "low", action := "delete" }
        none).currentMonthlyCost = 1 :=
  ⟨(calculateSavings_defaults_positive _ none trivial).1 (Or.inr (Or.inr rfl)),
   (((calculateSavings_defaults_positive _ none trivial).2 rfl).2.2) rfl⟩

/-- Per-rule aggregation entry of a `SavingsSummary`. -/
structure RuleAgg where
  count : ℕ
  monthlySavings : ℚ
  annualSavings : ℚ
deriving DecidableEq

/-- Aggregated savings over all detected issues (`SavingsSummary`);
`ruleBreakdown` is a JavaScript object in the source, i.e. an
insertion-ordered record keyed by rule id. -/
structure SavingsSummary where
  totalMonthlySavings : ℚ
  totalAnnualSavings : ℚ
  ruleBreakdown : List (String × RuleAgg)
  resourceBreakdown : List RuleSavings
deriving DecidableEq

/-- One loop iteration of `calculateSavingsSummary` on the `ruleBreakdown`
record: initialize a missing entry to zeros, then `count++`,
`monthlySavings += s`, `annualSavings = monthlySavings * 12`. -/
def updateBreakdown (bd : List (String × RuleAgg)) (rid : String) (s : ℚ) :
    List (String × RuleAgg) :=
  match bd with
  | [] => [(rid, { count := 1, monthlySavings := s, annualSavings := s * 12 })]
  | (k, agg) :: rest =>
      if k = rid then
        (k, { count := agg.count + 1,
              monthlySavings := agg.monthlySavings + s,
              annualSavings := (agg.monthlySavings + s) * 12 }) :: rest
      else (k, agg) :: updateBreakdown rest rid s

/-- One iteration of `calculateSavingsSummary`'s loop over the issues:
compute the per-issue estimate, push it, update the per-rule record, and
accumulate the monthly total. -/
def summaryStep (rdMap : String → Option ResourceData)
    (acc : List RuleSavings × List (String × RuleAgg) × ℚ)
    (issue : DetectedIssue) :
    List RuleSavings × List (String × RuleAgg) × ℚ :=
  let savings := calculateSavingsForIssue issue (rdMap issue.resourceId)
  (acc.1 ++ [savings],
   updateBreakdown acc.2.1 issue.ruleId savings.potentialMonthlySavings,
   acc.2.2 + savings.potentialMonthlySavings)

/-- The loop of `calculateSavingsSummary` over all issues, from empty
accumulators. -/
def summaryFold (issues : List DetectedIssue)
    (rdMap : String → Option ResourceData) :
    List RuleSavings × List (String × RuleAgg) × ℚ :=
  issues.foldl (summaryStep rdMap) ([], [], 0)

/-- `SavingsCalculator.calculateSavingsSummary`: loop over the issues,
then round the monthly total, compute the annual total as
`round2 (totalMonthlySavings * 12)` (from the already-rounded monthly
total — not a sum of per-issue annualized values), and round each
per-rule breakdown entry. The resource-data map of the source is
modelled as a lookup function. -/
def calculateSavingsSummary (issues : List DetectedIssue)
    (rdMap : String → Option ResourceData) : SavingsSummary :=
  let st := summaryFold issues rdMap
  let totalMonthlySavings := round2 st.2.2
  let totalAnnualSavings := round2 (totalMonthlySavings * 12)
  { totalMonthlySavings := totalMonthlySavings,
    totalAnnualSavings := totalAnnualSavings,
    ruleBreakdown := st.2.1.map (fun p =>
      (p.1, { count := p.2.count,
              monthlySavings := round2 p.2.monthlySavings,
              annualSavings := round2 p.2.annualSavings })),
    resourceBreakdown := st.1 }

/-- Invariant of the in-loop `ruleBreakdown` record: every entry's monthly
accumulator is an exact number of cents and its annual field is exactly
twelve times its monthly field. -/
def BreakdownInv (bd : List (String × RuleAgg)) : Prop :=
  ∀ p ∈ bd, CentValued p.2.monthlySavings ∧
    p.2.annualSavings = p.2.monthlySavings * 12

theorem updateBreakdown_inv {bd : List (String × RuleAgg)} {rid : String}
    {s : ℚ} (hbd : BreakdownInv bd) (hs : CentValued s) :
    BreakdownInv (updateBreakdown bd rid s) := by
  induction bd with
  | nil =>
      intro p hp
      simp [updateBreakdown] at hp
      subst hp
      exact ⟨hs, rfl⟩
  | cons q rest ih =>
      have hq := hbd q (by simp)
      have hrest : BreakdownInv rest := fun p hp => hbd p (by simp [hp])
      intro p hp
      unfold updateBreakdown at hp
      by_cases hk : q.1 = rid
      · rw [if_pos hk] at hp
        rcases List.mem_cons.mp hp with hp1 | hp2
        · subst hp1
          exact ⟨centValued_add hq.1 hs, rfl⟩
        · exact hbd p (by simp [hp2])
      · rw [if_neg hk] at hp
        rcases List.mem_cons.mp hp with hp1 | hp2
        · subst hp1
          exact hq
        · exact ih hrest p hp2

theorem summaryFold_inv (rdMap : String → Option ResourceData) :
    ∀ (issues : List DetectedIssue)
      (acc : List RuleSavings × List (String × RuleAgg) × ℚ),
      BreakdownInv acc.2.1 →
      BreakdownInv (issues.foldl (summaryStep rdMap) acc).2.1 := by
  intro issues
  induction issues with
  | nil => exact fun acc h => h
  | cons issue rest ih =>
      intro acc hacc
      rw [List.foldl_cons]
      apply ih
      unfold summaryStep
      apply updateBreakdown_inv hacc
      exact centValued_round2 _

theorem round2_round2_mul_twelve (x : ℚ) :
    round2 (round2 x * 12) = round2 x * 12 :=
  round2_of_centValued (centValued_mul_twelve (centValued_round2 x))

/-- Claim C5: the savings summary satisfies
`totalAnnualSavings = totalMonthlySavings × 12` exactly (the annual total
is computed from the rounded monthly total, not summed per issue), and
every `ruleBreakdown` entry satisfies
`annualSavings = monthlySavings × 12` exactly. -/
theorem savingsSummary_annual_is_twelve_monthly (issues : List DetectedIssue)
    (rdMap : String → Option ResourceData) :
    (calculateSavingsSummary issues rdMap).totalAnnualSavings =
      (calculateSavingsSummary issues rdMap).totalMonthlySavings * 12 ∧
    ∀ p ∈ (calculateSavingsSummary issues rdMap).ruleBreakdown,
      p.2.annualSavings = p.2.monthlySavings * 12 := by
  constructor
  · show round2 (round2 (summaryFold issues rdMap).2.2 * 12) =
      round2 (summaryFold issues rdMap).2.2 * 12
    exact round2_round2_mul_twelve _
  · intro p hp
    have hinv : BreakdownInv (summaryFold issues rdMap).2.1 :=
      summaryFold_inv rdMap issues ([], [], 0) (fun q hq => by simp at hq)
    have hmem : p ∈ (summaryFold issues rdMap).2.1.map (fun q =>
        (q.1, { count := q.2.count,
                monthlySavings := round2 q.2.monthlySavings,
                annualSavings := round2 q.2.annualSavings : RuleAgg })) := hp
    rw [List.mem_map] at hmem
    obtain ⟨q, hqmem, rfl⟩ := hmem
    obtain ⟨hcent, hann⟩ := hinv q hqmem
    show round2 q.2.annualSavings = round2 q.2.monthlySavings * 12
    rw [hann, round2_of_centValued hcent,
        round2_of_centValued (centValued_mul_twelve hcent)]

/-- Claim C5, witness: a concrete one-issue summary satisfies the
annual-equals-twelve-times-monthly relation. -/
theorem savingsSummary_annual_witness :
    (calculateSavingsSummary
        [{ ruleId := "idle_ec2", ruleName := "Idle EC2 Instance",
           resourceId := "i-1", resourceType := "ec2",
           issueDescription := "i", riskLevel := "medium", action := "stop" }]
        (fun _ => none)).totalAnnualSavings =
      (calculateSavingsSummary
        [{ ruleId := "idle_ec2", ruleName := "Idle EC2 Instance",
           resourceId := "i-1", resourceType := "ec2",
           issueDescription := "i", riskLevel := "medium", action := "stop" }]
        (fun _ => none)).totalMonthlySavings * 12 :=
  (savingsSummary_annual_is_twelve_monthly _ _).1

/-! ## Cost Collector (`CostExplorerService.getCostByService`, aws-client)

The Cost Explorer response is modelled as the flattened list of
`(service, parsedCost)` groups over all `ResultsByTime` entries whose
`BlendedCost.Amount` was present and truthy (the source skips falsy
amounts before parsing). The empty / missing `ResultsByTime` early return
of the source is extensionally the `groups = []` case: both produce
`totalCost = 0`, no services, and the same period. The currency-unit
string plumbing is not modelled (no claim concerns it); `currency` is the
`'USD'` initial value. -/

/-- One cost group of the response: a service name and its parsed cost. -/
structure CostGroup where
  service : String
  amount : ℚ
deriving DecidableEq

/-- `serviceCostsMap.set(name, (serviceCostsMap.get(name) || 0) + cost)`:
insertion-ordered accumulation of a cost into the per-service map. -/
def addServiceCost : List (String × ℚ) → String → ℚ → List (String × ℚ)
  | [], svc, c => [(svc, c)]
  | (k, v) :: rest, svc, c =>
      if k = svc then (k, v + c) :: rest
      else (k, v) :: addServiceCost rest svc c

/-- One iteration of the aggregation loop: add the group's cost to the
per-service map and to the running raw total. -/
def accumStep (acc : List (String × ℚ) × ℚ) (g : CostGroup) :
    List (String × ℚ) × ℚ :=
  (addServiceCost acc.1 g.service g.amount, acc.2 + g.amount)

/-- Aggregation of all cost groups into (per-service raw map, raw total). -/
def accumulateGroups (groups : List CostGroup) : List (String × ℚ) × ℚ :=
  groups.foldl accumStep ([], 0)

/-- `dailyAverage = rawTotal / windowDays; monthlyCost = dailyAverage * 30`. -/
def normalizeToMonthly (rawTotal : ℚ) (days : ℚ) : ℚ := rawTotal / days * 30

/-- Per-service line of a `CostSummary`. -/
structure ServiceCost where
  service : String
  cost : ℚ
  percentage : ℚ
deriving DecidableEq

/-- Per-service line construction: monthly-normalized rounded cost and
raw-proportion rounded percentage (0 if the raw total is not positive). -/
def serviceLineOf (daysDiff : ℤ) (totalRaw : ℚ) (p : String × ℚ) : ServiceCost :=
  { service := p.1,
    cost := round2 (normalizeToMonthly p.2 (daysDiff : ℚ)),
    percentage := if 0 < totalRaw then round2 (p.2 / totalRaw * 100) else 0 }

/-- The assembled cost summary: monthly-normalized rounded total, period
(millisecond timestamps and day count), per-service lines sorted by cost
descending. -/
structure CostSummary where
  totalCost : ℚ
  periodStart : ℤ
  periodEnd : ℤ
  periodDays : ℤ
  services : List ServiceCost
  currency : String
deriving DecidableEq

/-- Typed failure of the cost explorer service. -/
structure CostExplorerServiceError where
  message : String
  code : Option String
deriving DecidableEq

/-- Error classification of `getCostByService`'s catch block. -/
def classifyCeError (e : AwsSdkError) : CostExplorerServiceError :=
  if e.name = "AccessDenied" then
    { message := "Access denied to Cost Explorer.", code := some "AccessDenied" }
  else if e.name = "DataUnavailableException" then
    { message := "Cost data is not available for the specified time period.",
      code := some "DataUnavailable" }
  else if e.name = "InvalidNextTokenException" then
    { message := "Invalid pagination token.", code := some "InvalidToken" }
  else
    { message := "Failed to fetch cost data: " ++ e.message, code := some e.name }

/-- Summary assembly after a successful query. -/
def buildCostSummary (startMs endMs daysDiff : ℤ) (groups : List CostGroup) :
    CostSummary :=
  let acc := accumulateGroups groups
  let services := acc.1.map (serviceLineOf daysDiff acc.2)
  { totalCost := round2 (normalizeToMonthly acc.2 (daysDiff : ℚ)),
    periodStart := startMs,
    periodEnd := endMs,
    periodDays := daysDiff,
    services := List.insertionSort (fun a b => b.cost ≤ a.cost) services,
    currency := "USD" }

/-- `daysDiff = Math.ceil((endDate - startDate) / (1000*60*60*24))` on
millisecond timestamps. -/
def ceilDays (startMs endMs : ℤ) : ℤ :=
  ⌈((endMs - startMs : ℤ) : ℚ) / 86400000⌉

/-- `CostExplorerService.getCostByService`: reject `start ≥ end`, compute
`daysDiff = ceil((end - start) / 86400000)`, reject `daysDiff > 365`, then
consult the (grouped-by-service) query outcome and assemble the summary. -/
def getCostByService (startMs endMs : ℤ)
    (query : Except AwsSdkError (List CostGroup)) :
    Except CostExplorerServiceError CostSummary :=
  if startMs ≥ endMs then
    .error { message := "Start date must be before end date", code := none }
  else if ceilDays startMs endMs > 365 then
    .error { message := "Date range cannot exceed 365 days", code := none }
  else
    match query with
    | .error e => .error (classifyCeError e)
    | .ok groups =>
        .ok (buildCostSummary startMs endMs (ceilDays startMs endMs) groups)

section CostSummaryLemmas

/-- Sum of the values of a per-service map. -/
def sumVals (m : List (String × ℚ)) : ℚ := (m.map (fun p => p.2)).sum

theorem sumVals_addServiceCost (m : List (String × ℚ)) (svc : String) (c : ℚ) :
    sumVals (addServiceCost m svc c) = sumVals m + c := by
  induction m with
  | nil => simp [addServiceCost, sumVals]
  | cons p rest ih =>
      unfold addServiceCost
      by_cases hk : p.1 = svc
      · simp only [hk, if_pos]
        show p.2 + c + sumVals rest = p.2 + sumVals rest + c
        ring
      · rw [if_neg hk]
        show p.2 + sumVals (addServiceCost rest svc c) = p.2 + sumVals rest + c
        rw [ih]
        ring

theorem accumulate_sum_inv (groups : List CostGroup) :
    ∀ acc : List (String × ℚ) × ℚ,
      sumVals (groups.foldl accumStep acc).1 - (groups.foldl accumStep acc).2 =
        sumVals acc.1 - acc.2 := by
  induction groups with
  | nil => intro acc; rfl
  | cons g rest ih =>
      intro acc
      rw [List.foldl_cons, ih]
      unfold accumStep
      rw [sumVals_addServiceCost]
      ring

theorem accumulateGroups_sum (groups : List CostGroup) :
    sumVals (accumulateGroups groups).1 = (accumulateGroups groups).2 := by
  have h := accumulate_sum_inv groups ([], 0)
  unfold accumulateGroups
  have h0 : sumVals ([] : List (String × ℚ)) - (0 : ℚ) = 0 := by
    simp [sumVals]
  rw [h0] at h
  linarith [h]

theorem sum_abs_bound {α : Type} (l : List α) (f g : α → ℚ) (c : ℚ)
    (h : ∀ x ∈ l, |f x - g x| ≤ c) :
    |(l.map f).sum - (l.map g).sum| ≤ l.length * c := by
  induction l with
  | nil => simp
  | cons a rest ih =>
      have ha := h a (by simp)
      have hrest : |(rest.map f).sum - (rest.map g).sum| ≤ rest.length * c :=
        ih (fun x hx => h x (by simp [hx]))
      simp only [List.map_cons, List.sum_cons, List.length_cons]
      have htri : |f a + (rest.map f).sum - (g a + (rest.map g).sum)| ≤
          |f a - g a| + |(rest.map f).sum - (rest.map g).sum| := by
        have := abs_add (f a - g a) ((rest.map f).sum - (rest.map g).sum)
        calc |f a + (rest.map f).sum - (g a + (rest.map g).sum)|
            = |(f a - g a) + ((rest.map f).sum - (rest.map g).sum)| := by
              ring_nf
          _ ≤ _ := this
      calc |f a + (rest.map f).sum - (g a + (rest.map g).sum)|
          ≤ |f a - g a| + |(rest.map f).sum - (rest.map g).sum| := htri
        _ ≤ c + rest.length * c := by
            apply add_le_add ha hrest
        _ = ((rest.length + 1 : ℕ) : ℚ) * c := by push_cast; ring

theorem map_normalize_sum (m : List (String × ℚ)) (d : ℚ) :
    ((m.map (fun p => normalizeToMonthly p.2 d)).sum) =
      normalizeToMonthly (sumVals m) d := by
  induction m with
  | nil => simp [sumVals, normalizeToMonthly]
  | cons p rest ih =>
      simp only [List.map_cons, List.sum_cons, ih]
      unfold normalizeToMonthly sumVals
      rw [List.map_cons, List.sum_cons, add_div, add_mul]

theorem map_percent_sum (m : List (String × ℚ)) (T : ℚ) :
    ((m.map (fun p => p.2 / T * 100)).sum) = sumVals m / T * 100 := by
  induction m with
  | nil => simp [sumVals]
  | cons p rest ih =>
      simp only [List.map_cons, List.sum_cons, ih]
      unfold sumVals
      rw [List.map_cons, List.sum_cons, add_div, add_mul]

theorem pos_of_round2_pos {x : ℚ} (h : 0 < round2 x) : 0 < x := by
  by_contra hx
  push_neg at hx
  have := round2_mono hx
  rw [round2_zero] at this
  linarith

end CostSummaryLemmas

/-- Claim C9: `getCostByService` fails (independently of the query
outcome, i.e. without issuing the cost query) exactly when the window has
`start ≥ end` or spans more than 365 days (`end - start` exceeds 365 days
in milliseconds — the source's `ceil((end-start)/86400000) > 365` is
equivalent); for every other window with a successful query it returns the
assembled summary. -/
theorem getCostByService_window_validation (s e : ℤ)
    (q q' : Except AwsSdkError (List CostGroup)) :
    ((e ≤ s ∨ 365 * 86400000 < e - s) →
        getCostByService s e q = getCostByService s e q' ∧
        ∃ err, getCostByService s e q = .error err) ∧
    (s < e → e - s ≤ 365 * 86400000 →
        ∀ groups, q = .ok groups →
          getCostByService s e q =
            .ok (buildCostSummary s e (ceilDays s e) groups)) := by
  have hdays : (365 < ceilDays s e) ↔
      (365 * 86400000 < e - s) := by
    unfold ceilDays
    rw [Int.lt_ceil]
    rw [lt_div_iff₀ (by norm_num : (0 : ℚ) < 86400000)]
    constructor
    · intro h
      exact_mod_cast h
    · intro h
      exact_mod_cast h
  constructor
  · rintro (h | h)
    · have hge : s ≥ e := h
      constructor
      · unfold getCostByService
        rw [if_pos hge]
        rw [if_pos hge]
      · exact ⟨_, by unfold getCostByService; rw [if_pos hge]⟩
    · by_cases hse : s ≥ e
      · constructor
        · unfold getCostByService
          rw [if_pos hse, if_pos hse]
        · exact ⟨_, by unfold getCostByService; rw [if_pos hse]⟩
      · have hgt : 365 < ceilDays s e := hdays.mpr h
        constructor
        · unfold getCostByService
          rw [if_neg hse, if_neg hse]
          simp only [if_pos hgt]
        · unfold getCostByService
          rw [if_neg hse]
          simp only [if_pos hgt]
          exact ⟨_, rfl⟩
  · intro hlt hle groups hq
    have hse : ¬ (s ≥ e) := not_le.mpr hlt
    have hgt : ¬ (365 < ceilDays s e) := by
      rw [hdays]
      exact not_lt.mpr hle
    unfold getCostByService
    rw [if_neg hse]
    simp only [if_neg hgt, hq]

/-- Claim C9, witness: a 30-day window (in milliseconds) proceeds to the
query; a reversed window and a 400-day window both fail regardless of the
query outcome. -/
theorem getCostByService_window_validation_witness :
    getCostByService 0 2592000000 (.ok []) =
      .ok (buildCostSummary 0 2592000000 (ceilDays 0 2592000000) []) ∧
    (∃ err, getCostByService 5 0 (.ok []) = .error err) ∧
    (∃ err, getCostByService 0 34560000000 (.ok []) = .error err) := by
  refine ⟨?_, ?_, ?_⟩
  · exact (getCostByService_window_validation 0 2592000000 (.ok []) (.ok [])).2
      (by norm_num) (by norm_num) [] rfl
  · exact ((getCostByService_window_validation 5 0 (.ok []) (.error ⟨"x", "y"⟩)).1
      (Or.inl (by norm_num))).2
  · exact ((getCostByService_window_validation 0 34560000000 (.ok [])
      (.error ⟨"x", "y"⟩)).1 (Or.inr (by norm_num))).2

theorem getCostByService_ok_inv {s e : ℤ} {groups : List CostGroup}
    {summary : CostSummary}
    (h : getCostByService s e (.ok groups) = .ok summary) :
    summary = buildCostSummary s e (ceilDays s e) groups ∧
    0 < ceilDays s e := by
  by_cases hse : s ≥ e
  · rw [getCostByService, if_pos hse] at h
    exact absurd h (by simp)
  · by_cases hgt : ceilDays s e > 365
    · rw [getCostByService, if_neg hse, if_pos hgt] at h
      exact absurd h (by simp)
    · rw [getCostByService, if_neg hse, if_neg hgt] at h
      cases h
      refine ⟨rfl, ?_⟩
      unfold ceilDays
      rw [Int.ceil_pos]
      apply div_pos _ (by norm_num)
      push_neg at hse
      have h0 : (0 : ℤ) < e - s := by omega
      exact_mod_cast h0

theorem serviceLines_cost_sum_bound (d : ℤ) (m : List (String × ℚ)) (T : ℚ)
    (hsum : sumVals m = T) :
    |(((m.map (serviceLineOf d T)).map (fun sc => sc.cost)).sum) -
        round2 (normalizeToMonthly T (d : ℚ))| ≤
      (m.length : ℚ) * (1/100) := by
  rw [List.map_map]
  rw [show (fun sc => ServiceCost.cost sc) ∘ serviceLineOf d T =
      (fun p => round2 (normalizeToMonthly p.2 (d : ℚ))) from rfl]
  have hbound : |((m.map (fun p =>
      round2 (normalizeToMonthly p.2 (d : ℚ)))).sum) -
      ((m.map (fun p => normalizeToMonthly p.2 (d : ℚ))).sum)| ≤
      (m.length : ℚ) * (1/200) :=
    sum_abs_bound m _ _ (1/200) (fun x _ => abs_round2_sub _)
  rw [map_normalize_sum m (d : ℚ), hsum] at hbound
  have hround : |round2 (normalizeToMonthly T (d : ℚ)) -
      normalizeToMonthly T (d : ℚ)| ≤ 1/200 := abs_round2_sub _
  cases m with
  | nil =>
      have hT0 : T = 0 := by
        rw [← hsum]
        rfl
      subst hT0
      have hzero : normalizeToMonthly 0 (d : ℚ) = 0 := by
        unfold normalizeToMonthly
        rw [zero_div, zero_mul]
      simp only [List.map_nil, List.sum_nil, List.length_nil]
      rw [hzero, round2_zero]
      norm_num
  | cons p rest =>
      have hn : (1 : ℚ) ≤ (((p :: rest).length : ℕ) : ℚ) := by
        have : 1 ≤ (p :: rest).length := by simp
        exact_mod_cast this
      have htri : |(((p :: rest).map (fun x =>
          round2 (normalizeToMonthly x.2 (d : ℚ)))).sum) -
          round2 (normalizeToMonthly T (d : ℚ))| ≤
          |(((p :: rest).map (fun x =>
            round2 (normalizeToMonthly x.2 (d : ℚ)))).sum) -
            normalizeToMonthly T (d : ℚ)| +
          |round2 (normalizeToMonthly T (d : ℚ)) -
            normalizeToMonthly T (d : ℚ)| := by
        rw [abs_sub_comm (round2 (normalizeToMonthly T (d : ℚ)))]
        exact abs_sub_le _ _ _
      have h1 := add_le_add hbound hround
      have h2 : (((p :: rest).length : ℕ) : ℚ) * (1/200) + 1/200 ≤
          (((p :: rest).length : ℕ) : ℚ) * (1/100) := by nlinarith
      linarith

theorem serviceLines_percentage_sum_bound (d : ℤ) (m : List (String × ℚ))
    (T : ℚ) (hsum : sumVals m = T) (hTpos : 0 < T) :
    |(((m.map (serviceLineOf d T)).map (fun sc => sc.percentage)).sum) - 100| ≤
      (m.length : ℚ) * (1/200) := by
  rw [List.map_map]
  rw [show (fun sc => ServiceCost.percentage sc) ∘ serviceLineOf d T =
      (fun p => if 0 < T then round2 (p.2 / T * 100) else 0) from rfl]
  simp only [if_pos hTpos]
  have hg : ((m.map (fun p => p.2 / T * 100)).sum) = 100 := by
    rw [map_percent_sum, hsum, div_self (ne_of_gt hTpos), one_mul]
  have hbound : |((m.map (fun p => round2 (p.2 / T * 100))).sum) -
      ((m.map (fun p => p.2 / T * 100)).sum)| ≤
      (m.length : ℚ) * (1/200) :=
    sum_abs_bound m _ _ (1/200) (fun x _ => abs_round2_sub _)
  rw [hg] at hbound
  exact hbound

/-- Claim C3 (amended): for every `CostSummary` returned by
`getCostByService`, the sum of the per-service costs differs from
`totalCost` by at most `0.01 × serviceCount`; and whenever
`totalCost > 0`, the sum of the percentages differs from 100 by at most
`0.005 × serviceCount` — each percentage is individually rounded to two
decimals, so the drift grows with the number of services and is not
bounded by the fixed 0.1 of the claim once there are more than 20
services. -/
theorem costSummary_sums (s e : ℤ) (groups : List CostGroup)
    (summary : CostSummary)
    (h : getCostByService s e (.ok groups) = .ok summary) :
    |((summary.services.map (fun sc => sc.cost)).sum) - summary.totalCost| ≤
      (summary.services.length : ℚ) * (1/100) ∧
    (0 < summary.totalCost →
      |((summary.services.map (fun sc => sc.percentage)).sum) - 100| ≤
        (summary.services.length : ℚ) * (1/200)) := by
  obtain ⟨rfl, hd⟩ := getCostByService_ok_inv h
  have hsum := accumulateGroups_sum groups
  have hperm : List.Perm
      (List.insertionSort (fun a b => b.cost ≤ a.cost)
        ((accumulateGroups groups).1.map
          (serviceLineOf (ceilDays s e) (accumulateGroups groups).2)))
      ((accumulateGroups groups).1.map
        (serviceLineOf (ceilDays s e) (accumulateGroups groups).2)) :=
    List.perm_insertionSort _ _
  have hservices : (buildCostSummary s e (ceilDays s e) groups).services =
      List.insertionSort (fun a b => b.cost ≤ a.cost)
        ((accumulateGroups groups).1.map
          (serviceLineOf (ceilDays s e) (accumulateGroups groups).2)) := rfl
  have htot : (buildCostSummary s e (ceilDays s e) groups).totalCost =
      round2 (normalizeToMonthly (accumulateGroups groups).2
        ((ceilDays s e : ℤ) : ℚ)) := rfl
  have hlen : (List.insertionSort (fun a b => b.cost ≤ a.cost)
      ((accumulateGroups groups).1.map
        (serviceLineOf (ceilDays s e) (accumulateGroups groups).2))).length =
      (accumulateGroups groups).1.length := by
    rw [hperm.length_eq, List.length_map]
  constructor
  · rw [hservices, htot, hlen]
    rw [(hperm.map (fun sc => sc.cost)).sum_eq]
    exact serviceLines_cost_sum_bound (ceilDays s e) _ _ hsum
  · intro hpos
    rw [htot] at hpos
    have hnorm_pos : 0 < normalizeToMonthly (accumulateGroups groups).2
        ((ceilDays s e : ℤ) : ℚ) := pos_of_round2_pos hpos
    have hdq : (0 : ℚ) < ((ceilDays s e : ℤ) : ℚ) := by exact_mod_cast hd
    have hTpos : 0 < (accumulateGroups groups).2 := by
      set T : ℚ := (accumulateGroups groups).2
      set dq : ℚ := ((ceilDays s e : ℤ) : ℚ)
      have h30 : 0 < T / dq * 30 := hnorm_pos
      have hq : 0 < T / dq := by linarith
      have hfs : T = T / dq * dq := by
        field_simp
      rw [hfs]
      exact mul_pos hq hdq
    rw [hservices, hlen]
    rw [(hperm.map (fun sc => sc.percentage)).sum_eq]
    exact serviceLines_percentage_sum_bound (ceilDays s e) _ _ hsum hTpos

/-- Claim C3, witness: a single-service 30-day window — one group `EC2`
with raw cost 300 — yields a summary whose cost sum is within
`0.01 × 1` of `totalCost` and whose percentage sum is within
`0.005 × 1` of 100. -/
theorem costSummary_sums_witness :
    ∃ summary, getCostByService 0 2592000000 (.ok [⟨"EC2", 300⟩]) =
        .ok summary ∧
      |((summary.services.map (fun sc => sc.cost)).sum) - summary.totalCost| ≤
        (summary.services.length : ℚ) * (1/100) ∧
      (0 < summary.totalCost →
        |((summary.services.map (fun sc => sc.percentage)).sum) - 100| ≤
          (summary.services.length : ℚ) * (1/200)) := by
  have hcd : ¬ (ceilDays 0 2592000000 > 365) := by
    unfold ceilDays
    rw [show ((2592000000 - 0 : ℤ) : ℚ) / 86400000 = ((30 : ℤ) : ℚ) by
      norm_num]
    rw [Int.ceil_intCast]
    norm_num
  have h : getCostByService 0 2592000000 (.ok [⟨"EC2", 300⟩]) =
      .ok (buildCostSummary 0 2592000000 (ceilDays 0 2592000000)
        [⟨"EC2", 300⟩]) := by
    rw [getCostByService, if_neg (by norm_num), if_neg hcd]
  exact ⟨_, h, costSummary_sums 0 2592000000 [⟨"EC2", 300⟩] _ h⟩

/-- 22 cost groups over a 30-day window engineered so that every
percentage rounds half-up: 21 services at 4.545% and one at 4.555%. -/
def pctDriftGroups : List CostGroup :=
  [⟨"A01", 454.5⟩, ⟨"A02", 454.5⟩, ⟨"A03", 454.5⟩, ⟨"A04", 454.5⟩,
   ⟨"A05", 454.5⟩, ⟨"A06", 454.5⟩, ⟨"A07", 454.5⟩, ⟨"A08", 454.5⟩,
   ⟨"A09", 454.5⟩, ⟨"A10", 454.5⟩, ⟨"A11", 454.5⟩, ⟨"A12", 454.5⟩,
   ⟨"A13", 454.5⟩, ⟨"A14", 454.5⟩, ⟨"A15", 454.5⟩, ⟨"A16", 454.5⟩,
   ⟨"A17", 454.5⟩, ⟨"A18", 454.5⟩, ⟨"A19", 454.5⟩, ⟨"A20", 454.5⟩,
   ⟨"A21", 454.5⟩, ⟨"A22", 455.5⟩]

/-- Claim C3, counterexample: with 22 services whose percentages all round
half-up, the percentages of the returned summary sum to 100.11, so their
distance from 100 exceeds the claimed 0.1 tolerance even though
`totalCost > 0`. -/
theorem costSummary_percentage_counterexample :
    ∃ summary, getCostByService 0 2592000000 (.ok pctDriftGroups) =
        .ok summary ∧
      0 < summary.totalCost ∧
      ¬ (|((summary.services.map (fun sc => sc.percentage)).sum) - 100| ≤
          1/10) := by
  have hcd : ceilDays 0 2592000000 = 30 := by
    unfold ceilDays
    rw [show ((2592000000 - 0 : ℤ) : ℚ) / 86400000 = ((30 : ℤ) : ℚ) by
      norm_num]
    rw [Int.ceil_intCast]
  have h : getCostByService 0 2592000000 (.ok pctDriftGroups) =
      .ok (buildCostSummary 0 2592000000 30 pctDriftGroups) := by
    rw [getCostByService, if_neg (by norm_num), hcd, if_neg (by norm_num)]
  refine ⟨_, h, ?_, ?_⟩
  · show 0 < (buildCostSummary 0 2592000000 30 pctDriftGroups).totalCost
    norm_num [buildCostSummary, pctDriftGroups, accumulateGroups, accumStep,
      addServiceCost, normalizeToMonthly, round2]
  · show ¬ (|(((buildCostSummary 0 2592000000 30
        pctDriftGroups).services.map (fun sc => sc.percentage)).sum) - 100| ≤
        1/10)
    have hsumval : (((buildCostSummary 0 2592000000 30
        pctDriftGroups).services.map (fun sc => sc.percentage)).sum) =
        10011/100 := by
      norm_num [buildCostSummary, pctDriftGroups, accumulateGroups, accumStep,
        addServiceCost, serviceLineOf, normalizeToMonthly, round2,
        List.insertionSort, List.orderedInsert]
    rw [hsumval]
    rw [show (10011/100 : ℚ) - 100 = 11/100 by norm_num]
    rw [abs_of_nonneg (by norm_num : (0:ℚ) ≤ 11/100)]
    norm_num

theorem addServiceCost_scale (m : List (String × ℚ)) (svc : String) (c : ℚ) :
    addServiceCost (m.map (fun p => (p.1, 2 * p.2))) svc (2 * c) =
      (addServiceCost m svc c).map (fun p => (p.1, 2 * p.2)) := by
  induction m with
  | nil => simp [addServiceCost]
  | cons p rest ih =>
      simp only [List.map_cons]
      unfold addServiceCost
      by_cases hk : p.1 = svc
      · simp only [hk, if_pos]
        simp [mul_add]
      · simp only [hk, if_neg, ite_false]
        simp [ih]

theorem accumStep_scale (acc : List (String × ℚ) × ℚ) (g : CostGroup) :
    accumStep (acc.1.map (fun p => (p.1, 2 * p.2)), 2 * acc.2)
        { service := g.service, amount := 2 * g.amount } =
      ((accumStep acc g).1.map (fun p => (p.1, 2 * p.2)),
       2 * (accumStep acc g).2) := by
  unfold accumStep
  refine Prod.ext ?_ ?_
  · exact addServiceCost_scale acc.1 g.service g.amount
  · show 2 * acc.2 + 2 * g.amount = 2 * (acc.2 + g.amount)
    ring

theorem accumulate_scale (groups : List CostGroup) :
    ∀ acc : List (String × ℚ) × ℚ,
      (groups.map (fun g =>
        ({ service := g.service, amount := 2 * g.amount } : CostGroup))).foldl
          accumStep (acc.1.map (fun p => (p.1, 2 * p.2)), 2 * acc.2) =
      ((groups.foldl accumStep acc).1.map (fun p => (p.1, 2 * p.2)),
        2 * (groups.foldl accumStep acc).2) := by
  induction groups with
  | nil => intro acc; rfl
  | cons g rest ih =>
      intro acc
      simp only [List.map_cons, List.foldl_cons]
      rw [accumStep_scale acc g]
      exact ih (accumStep acc g)

theorem accumulateGroups_scale (groups : List CostGroup) :
    accumulateGroups (groups.map (fun g =>
        ({ service := g.service, amount := 2 * g.amount } : CostGroup))) =
      ((accumulateGroups groups).1.map (fun p => (p.1, 2 * p.2)),
        2 * (accumulateGroups groups).2) := by
  unfold accumulateGroups
  have h := accumulate_scale groups ([], 0)
  simpa using h

theorem serviceLineOf_scale (T : ℚ) (p : String × ℚ) :
    serviceLineOf 20 (2 * T) (p.1, 2 * p.2) = serviceLineOf 10 T p := by
  unfold serviceLineOf normalizeToMonthly
  simp only [ServiceCost.mk.injEq]
  refine ⟨trivial, ?_, ?_⟩
  · congr 1
    push_cast
    ring
  · apply if_congr
    · constructor <;> intro h <;> linarith
    · congr 1
      rw [mul_div_mul_left p.2 T (by norm_num : (2 : ℚ) ≠ 0)]
    · rfl

/-- Claim C8: monthly normalization is scale-invariant. At the formula
level, `normalizeToMonthly X 10 = normalizeToMonthly (2X) 20 = X/10×30`;
and at the summary level, doubling every raw group cost while doubling the
window from 10 to 20 days yields the identical `totalCost` and the
identical per-service lines (costs and percentages), since
`dailyAverage = rawTotal / windowDays; monthlyCost = dailyAverage × 30`
is applied uniformly to the total and to every per-service line. -/
theorem costNormalization_scale_invariant (X : ℚ) (s1 e1 s2 e2 : ℤ)
    (groups : List CostGroup) :
    (normalizeToMonthly X 10 = normalizeToMonthly (2 * X) 20 ∧
     normalizeToMonthly X 10 = X / 10 * 30) ∧
    ((buildCostSummary s2 e2 20 (groups.map (fun g =>
        { service := g.service, amount := 2 * g.amount }))).totalCost =
       (buildCostSummary s1 e1 10 groups).totalCost ∧
     (buildCostSummary s2 e2 20 (groups.map (fun g =>
        { service := g.service, amount := 2 * g.amount }))).services =
       (buildCostSummary s1 e1 10 groups).services) := by
  constructor
  · constructor
    · unfold normalizeToMonthly
      ring
    · rfl
  · have hacc := accumulateGroups_scale groups
    constructor
    · show round2 (normalizeToMonthly (accumulateGroups (groups.map (fun g =>
          ({ service := g.service, amount := 2 * g.amount } : CostGroup)))).2
          ((20 : ℤ) : ℚ)) =
        round2 (normalizeToMonthly (accumulateGroups groups).2 ((10 : ℤ) : ℚ))
      rw [hacc]
      congr 1
      unfold normalizeToMonthly
      push_cast
      ring
    · show List.insertionSort (fun a b => b.cost ≤ a.cost)
          ((accumulateGroups (groups.map (fun g =>
            ({ service := g.service, amount := 2 * g.amount } : CostGroup)))).1.map
            (serviceLineOf 20 (accumulateGroups (groups.map (fun g =>
              ({ service := g.service, amount := 2 * g.amount } : CostGroup)))).2)) =
        List.insertionSort (fun a b => b.cost ≤ a.cost)
          ((accumulateGroups groups).1.map
            (serviceLineOf 10 (accumulateGroups groups).2))
      rw [hacc]
      congr 1
      rw [List.map_map]
      apply List.map_congr_left
      intro p _
      show serviceLineOf 20 (2 * (accumulateGroups groups).2) (p.1, 2 * p.2) =
        serviceLineOf 10 (accumulateGroups groups).2 p
      exact serviceLineOf_scale _ p

/-! ## Scan Orchestrator (`ScanService.runScan`, apps/api) -/

/-- Failure of a resource collector (EC2 instances, EBS volumes, or EBS
snapshots). -/
structure CollectorError where
  message : String
deriving DecidableEq

/-- The typed errors surfaced by `runScan`: an `AssumeRoleError` is
re-thrown as is; a `ValidationError` is mapped to a message naming the
missing services; cost-collection and collector errors propagate. -/
inductive ScanError where
  | assumeRoleFailed (e : AssumeRoleError)
  | permissionValidationFailed (missingServices : List String)
  | costCollectionFailed (e : CostExplorerServiceError)
  | collectorFailed (e : CollectorError)
deriving DecidableEq

/-- The assembled scan result. -/
structure ScanResult where
  scanId : String
  timestamp : ℤ
  region : String
  costSummary : CostSummary
  ec2InstanceCount : ℕ
  ebsVolumeCount : ℕ
  ebsSnapshotCount : ℕ
  issues : List DetectedIssue
  savings : SavingsSummary
deriving DecidableEq

/-- The resource-data map built by `runScan` for the savings calculation:
instance types keyed by instance id, then volume size/type keyed by volume
id, then snapshot size keyed by snapshot id (later writes overwrite). -/
def buildResourceDataMap (ec2Instances : List Ec2Instance)
    (ebsVolumes : List EbsVolume) (ebsSnapshots : List EbsSnapshot) :
    List (String × ResourceData) :=
  let m1 := ec2Instances.foldl (fun m i => assocSet m i.instanceId
    { instanceType := some i.instanceType, volumeSize := none,
      volumeType := none, snapshotSize := none }) []
  let m2 := ebsVolumes.foldl (fun m v => assocSet m v.volumeId
    { instanceType := none, volumeSize := some v.size,
      volumeType := some v.volumeType, snapshotSize := none }) m1
  ebsSnapshots.foldl (fun m sn => assocSet m sn.snapshotId
    { instanceType := none, volumeSize := none,
      volumeType := none, snapshotSize := some sn.volumeSize }) m2

/-- `ScanService.runScan` (non-mock path): assume the IAM role, validate
permissions, collect the cost summary, collect the three resource
inventories concurrently (`Promise.all`: if any collector rejects, the
whole collection rejects), evaluate rules, compute savings, and assemble
the `ScanResult`. Every external call's outcome is an explicit argument;
each stage's failure maps to a typed `ScanError` and aborts the scan. -/
def runScan (scanId : String) (timestamp : ℤ) (region roleArn : String)
    (now : ℤ) (stsExchange : Except AwsSdkError StsResponse)
    (ceProbe ec2Probe : Except ProbeError Unit)
    (costOutcome : Except CostExplorerServiceError CostSummary)
    (ec2Outcome : Except CollectorError (List Ec2Instance))
    (ebsOutcome : Except CollectorError (List EbsVolume))
    (snapOutcome : Except CollectorError (List EbsSnapshot)) :
    Except ScanError ScanResult :=
  match assumeRole roleArn 3600 now stsExchange with
  | .error e => .error (.assumeRoleFailed e)
  | .ok _ =>
    match validatePermissions ceProbe ec2Probe with
    | .error ve => .error (.permissionValidationFailed
        (ve.validationResult.errors.map (fun er => er.service)))
    | .ok _ =>
      match costOutcome with
      | .error ce => .error (.costCollectionFailed ce)
      | .ok costSummary =>
        match ec2Outcome, ebsOutcome, snapOutcome with
        | .error e, _, _ => .error (.collectorFailed e)
        | _, .error e, _ => .error (.collectorFailed e)
        | _, _, .error e => .error (.collectorFailed e)
        | .ok ec2Instances, .ok ebsVolumes, .ok ebsSnapshots =>
            let issues := evaluateAllResources ec2Instances ebsVolumes
              ebsSnapshots
            let savingsSummary := calculateSavingsSummary issues
              (fun id => assocLookup
                (buildResourceDataMap ec2Instances ebsVolumes ebsSnapshots) id)
            .ok { scanId := scanId,
                  timestamp := timestamp,
                  region := region,
                  costSummary := costSummary,
                  ec2InstanceCount := ec2Instances.length,
                  ebsVolumeCount := ebsVolumes.length,
                  ebsSnapshotCount := ebsSnapshots.length,
                  issues := issues,
                  savings := savingsSummary }

/-- Claim C6: if any one of the three resource collectors fails, `runScan`
returns a typed error and never a `ScanResult` — no partial-inventory
result is produced. -/
theorem runScan_all_or_nothing (scanId : String) (timestamp : ℤ)
    (region roleArn : String) (now : ℤ)
    (stsExchange : Except AwsSdkError StsResponse)
    (ceProbe ec2Probe : Except ProbeError Unit)
    (costOutcome : Except CostExplorerServiceError CostSummary)
    (ec2Outcome : Except CollectorError (List Ec2Instance))
    (ebsOutcome : Except CollectorError (List EbsVolume))
    (snapOutcome : Except CollectorError (List EbsSnapshot))
    (h : ec2Outcome.isOk = false ∨ ebsOutcome.isOk = false ∨
         snapOutcome.isOk = false) :
    (∃ err, runScan scanId timestamp region roleArn now stsExchange
        ceProbe ec2Probe costOutcome ec2Outcome ebsOutcome snapOutcome =
        .error err) ∧
    ∀ result, runScan scanId timestamp region roleArn now stsExchange
        ceProbe ec2Probe costOutcome ec2Outcome ebsOutcome snapOutcome ≠
        .ok result := by
  have herr : ∃ err, runScan scanId timestamp region roleArn now stsExchange
      ceProbe ec2Probe costOutcome ec2Outcome ebsOutcome snapOutcome =
      .error err := by
    unfold runScan
    cases assumeRole roleArn 3600 now stsExchange with
    | error e => exact ⟨ScanError.assumeRoleFailed e, rfl⟩
    | ok creds =>
        cases validatePermissions ceProbe ec2Probe with
        | error ve => exact ⟨ScanError.permissionValidationFailed
            (ve.validationResult.errors.map (fun er => er.service)), rfl⟩
        | ok vr =>
            cases costOutcome with
            | error ce => exact ⟨ScanError.costCollectionFailed ce, rfl⟩
            | ok cs =>
                cases ec2Outcome with
                | error e =>
                    cases ebsOutcome <;> cases snapOutcome <;>
                      exact ⟨ScanError.collectorFailed e, rfl⟩
                | ok is =>
                    cases ebsOutcome with
                    | error e =>
                        cases snapOutcome <;>
                          exact ⟨ScanError.collectorFailed e, rfl⟩
                    | ok vs =>
                        cases snapOutcome with
                        | error e => exact ⟨ScanError.collectorFailed e, rfl⟩
                        | ok ss =>
                            simp [Except.isOk, Except.toBool] at h
  obtain ⟨err, herr⟩ := herr
  refine ⟨⟨err, herr⟩, ?_⟩
  intro result hok
  rw [herr] at hok
  exact absurd hok (by simp)

/-- Claim C6, witness: with a failing EBS-volume collector (and every
other stage succeeding), `runScan` returns a typed error and no result. -/
theorem runScan_all_or_nothing_witness :
    ∃ err, runScan "scan-1" 0 "us-east-1" "arn:aws:iam::123456789012:role/R"
        0 (.ok ⟨some ⟨some "AK", some "SK", some "ST", some 3600000⟩⟩)
        (.ok ()) (.ok ())
        (.ok (buildCostSummary 0 2592000000 30 []))
        (.ok []) (.error ⟨"EBS listing failed"⟩) (.ok []) =
      .error err :=
  ((runScan_all_or_nothing "scan-1" 0 "us-east-1"
      "arn:aws:iam::123456789012:role/R" 0
      (.ok ⟨some ⟨some "AK", some "SK", some "ST", some 3600000⟩⟩)
      (.ok ()) (.ok ())
      (.ok (buildCostSummary 0 2592000000 30 []))
      (.ok []) (.error ⟨"EBS listing failed"⟩) (.ok [])
      (Or.inr (Or.inl rfl))).1)
